import Mathlib

/-!
Shallow embedding of the transaction-ingestion and fraud-rule-evaluation core
of the `ftransaction-2025` repository.

The embedded code lives in `app/services/alerts.py` (rule configuration,
rolling average, severity classification, the Python rule engine,
`insert_transaction`) and `app/routes/portal.py` (the step-up PIN
confirmation flow `confirm_suspicious_tx` and the pending-verification
marking done by `create_portal_transaction`).

Modelling conventions:
* SQL tables become lists of records inside a `DB` record; every `run_query`
  statement commits on its own connection (`app/db.py`), so a later failure
  never rolls back an earlier statement.  A failing SQL statement leaves the
  store unchanged and raises, which is modelled with `Except`.
* Python `float` amounts are modelled as `ℚ`; timestamps are `ℚ`-valued days
  (`NOW()` is the `now` field of the state).
* Python's `str.lower` / `str.strip` are embedded as `pyLower` / `pyStrip`;
  `None`-able strings are `Option String`, and empty strings model the other
  falsy case where the source tests truthiness.
* The store-side rule procedures `rule_new_device` / `rule_velocity_3in2min`
  and the uniqueness constraint on `alerts (transaction_id, rule_code)` are
  declared in the repository's schema, which is not part of `src/`; those
  two pieces are modelled from the spec and carry doc comments saying so.
* Flask `flash` messages, redirects and the web-session bookkeeping of
  `portal.py` are outside the data model and are not represented.
-/

namespace FraudCore

/-- Embedding of Python `str.lower` for the ASCII strings handled by the core. -/
def lowerChar (c : Char) : Char :=
  if c.isUpper then Char.ofNat (c.toNat + 32) else c

/-- Embedding of Python `str.lower`. -/
def pyLower (s : String) : String := String.mk (s.data.map lowerChar)

/-- Embedding of Python `str.strip`. -/
def pyStrip (s : String) : String :=
  String.mk (((s.data.dropWhile Char.isWhitespace).reverse.dropWhile
    Char.isWhitespace).reverse)

/-- A row of the `accounts` table (the columns the core touches). -/
@[ext] structure Account where
  id : Nat
  customer_id : Nat
  balance : ℚ
deriving DecidableEq, Repr

/-- A row of the `transactions` table. -/
@[ext] structure Txn where
  id : Nat
  account_id : Nat
  merchant_id : Option Nat
  device_id : Option Nat
  amount : ℚ
  currency : String
  direction : String
  status : String
  ts : ℚ
deriving DecidableEq, Repr

/-- A row of the `alerts` table. -/
@[ext] structure Alert where
  id : Nat
  transaction_id : Nat
  rule_code : String
  severity : String
  status : String
  created_ts : ℚ
deriving DecidableEq, Repr

/-- A row of the `merchants` table (the columns the core touches). -/
structure Merchant where
  id : Nat
  risk_tier : Option String
deriving DecidableEq, Repr

/-- A row of the `alert_rules` table; `account_id = none` is the global default row. -/
structure AlertRuleRow where
  account_id : Option Nat
  amount_threshold : ℚ
  spike_multiplier : ℚ
  lookback_days : Int
deriving DecidableEq, Repr

/-- A row of the `customer_auth` table (the columns the core touches). -/
structure AuthRow where
  customer_id : Nat
  pin_hash : Option String
deriving DecidableEq, Repr

/-- A row of the `customers` table (the columns the core touches). -/
structure Customer where
  id : Nat
  name : String
  email : String
deriving DecidableEq, Repr

/-- The two auto-detected layouts of the `notifications` table
(`notifications_mode` in `alerts.py`). -/
inductive NotifMode where
  | simple
  | channels
deriving DecidableEq, Repr

/-- The relational store as seen by the core.  `notif_mode = none` models an
absent or unrecognized `notifications` table; `alert_rules = none` models an
absent `alert_rules` table; `admin_notifs_exists` models whether the
`admin_notifications` table exists. -/
@[ext] structure DB where
  accounts : List Account
  transactions : List Txn
  alerts : List Alert
  merchants : List Merchant
  alert_rules : Option (List AlertRuleRow)
  customer_auth : List AuthRow
  customers : List Customer
  notif_mode : Option NotifMode
  notifications : List String
  admin_notifs_exists : Bool
  admin_notifications : List (Nat × Nat × String)
  next_tx_id : Nat
  next_alert_id : Nat
  now : ℚ
deriving DecidableEq, Repr

/-! ### Alert rule defaults (`alerts.py` lines 13-15) -/

def DEFAULT_THRESHOLD : ℚ := 200

def DEFAULT_SPIKE_MULTIPLIER : ℚ := 5 / 2

def DEFAULT_LOOKBACK_DAYS : Int := 30

/-- The configuration triple returned by `get_alert_rule_for_account`. -/
structure AlertRuleCfg where
  amount_threshold : ℚ
  spike_multiplier : ℚ
  lookback_days : Int
deriving DecidableEq, Repr

def defaultCfg : AlertRuleCfg :=
  { amount_threshold := DEFAULT_THRESHOLD
    spike_multiplier := DEFAULT_SPIKE_MULTIPLIER
    lookback_days := DEFAULT_LOOKBACK_DAYS }

def AlertRuleRow.toCfg (r : AlertRuleRow) : AlertRuleCfg :=
  { amount_threshold := r.amount_threshold
    spike_multiplier := r.spike_multiplier
    lookback_days := r.lookback_days }

/-- Core of `get_alert_rule_for_account`: resolution against the
`alert_rules` table contents (`none` = the table does not exist). -/
def resolve_rule (tbl : Option (List AlertRuleRow)) (account_id : Option Nat) :
    AlertRuleCfg :=
  match tbl, account_id with
  | none, _ => defaultCfg
  | some _, none => defaultCfg
  | some rows, some aid =>
    match rows.filter (fun r => r.account_id == some aid) with
    | r :: _ => r.toCfg
    | [] =>
      match rows.filter (fun r => r.account_id == none) with
      | r :: _ => r.toCfg
      | [] => defaultCfg

/-- `get_alert_rule_for_account` (`alerts.py` lines 18-61). -/
def get_alert_rule_for_account (db : DB) (account_id : Option Nat) : AlertRuleCfg :=
  resolve_rule db.alert_rules account_id

/-- Core of `rolling_avg_amount`: `AVG(amount)` over the account's
transactions inside the lookback window, `0` when the window is empty
(`COALESCE(AVG(amount),0)`). -/
def rolling_avg_core (txns : List Txn) (now : ℚ) (account_id : Nat)
    (lookback_days : Int) : ℚ :=
  let rows := txns.filter
    (fun t => t.account_id == account_id && decide (now - (lookback_days : ℚ) ≤ t.ts))
  if rows.isEmpty then 0 else (rows.map Txn.amount).sum / (rows.length : ℚ)

/-- `rolling_avg_amount` (`alerts.py` lines 64-77). -/
def rolling_avg_amount (db : DB) (account_id : Nat) (lookback_days : Int) : ℚ :=
  rolling_avg_core db.transactions db.now account_id lookback_days

/-! ### Risk-tier helpers (`alerts.py` lines 145-201) -/

/-- Core of `_merchant_risk_tier`: normalized risk tier lookup.  Python's
`if not merchant_id` also treats the id `0` as missing. -/
def tier_core (merchants : List Merchant) (merchant_id : Option Nat) : String :=
  match merchant_id with
  | none => "med"
  | some 0 => "med"
  | some mid =>
    match merchants.find? (fun m => m.id == mid) with
    | none => "med"
    | some m =>
      match m.risk_tier with
      | none => "med"
      | some raw =>
        let tier := pyLower (pyStrip raw)
        if tier = "low" ∨ tier = "med" ∨ tier = "high" then tier else "med"

def _merchant_risk_tier (db : DB) (merchant_id : Option Nat) : String :=
  tier_core db.merchants merchant_id

/-- `_severity_for_threshold` (`alerts.py` lines 163-182). -/
def _severity_for_threshold (amount threshold : ℚ) (risk_tier : String) : String :=
  let tier := pyLower (if risk_tier = "" then "med" else risk_tier)
  if tier = "low" then "high"
  else if tier = "med" then (if threshold * 2 ≤ amount then "high" else "med")
  else if tier = "high" then (if threshold * 3 ≤ amount then "med" else "low")
  else "med"

/-- `_severity_for_spike_vs_avg` (`alerts.py` lines 185-201). -/
def _severity_for_spike_vs_avg (amount avg : ℚ) (risk_tier : String) : String :=
  let tier := pyLower (if risk_tier = "" then "med" else risk_tier)
  let ratio := if 0 < avg then amount / avg else 0
  if tier = "low" then (if 2 ≤ ratio then "high" else "med")
  else if tier = "med" then (if 3 ≤ ratio then "high" else "med")
  else if tier = "high" then (if 4 ≤ ratio then "med" else "low")
  else "med"

/-! ### Alert persistence -/

/-- Does an alert row with this `(transaction_id, rule_code)` pair exist? -/
def hasAlert (db : DB) (transaction_id : Nat) (rule_code : String) : Bool :=
  db.alerts.any (fun a => a.transaction_id == transaction_id && a.rule_code == rule_code)

/-- Modelled from the spec: the store's `INSERT INTO alerts` statement.  The
`alerts` table carries a uniqueness constraint on
`(transaction_id, rule_code)` (spec §6 persisted state layout); the
constraint itself is declared in the repository's schema file, which is not
under `src/`.  Inserting a duplicate pair raises a unique-violation error
and leaves the store unchanged; otherwise the row is appended with the next
alert id and `created_ts = NOW()`. -/
def alerts_insert (db : DB) (transaction_id : Nat) (rule_code severity status : String) :
    Except String DB :=
  if hasAlert db transaction_id rule_code then .error "unique_violation"
  else .ok { db with
    alerts := db.alerts ++
      [{ id := db.next_alert_id, transaction_id := transaction_id,
         rule_code := rule_code, severity := severity, status := status,
         created_ts := db.now }]
    next_alert_id := db.next_alert_id + 1 }

/-- `notifications_mode` (`alerts.py` lines 80-95): the schema auto-detection
is modelled by the `notif_mode` field of the state. -/
def notifications_mode (db : DB) : Option NotifMode := db.notif_mode

/-- The notification mirroring done at the end of `create_alert`
(`alerts.py` lines 118-140): depending on the detected schema, a message row
is appended; in `channels` mode the row references the most recent alert of
the transaction. -/
def mirror_notification (db : DB) (transaction_id : Nat) (rule_code : String) : DB :=
  match notifications_mode db with
  | some .simple =>
    { db with notifications := db.notifications ++
        [s!"Alert {rule_code} triggered for transaction {transaction_id}"] }
  | some .channels =>
    match (db.alerts.filter (fun a => a.transaction_id == transaction_id)).map Alert.id with
    | [] => db
    | _ :: _ =>
      { db with notifications := db.notifications ++
          [s!"Alert {rule_code} for txn {transaction_id}"] }
  | none => db

/-- `create_alert` (`alerts.py` lines 98-140): normalize severity and status,
insert the alert row (which raises on a duplicate `(transaction_id,
rule_code)` pair), then mirror into notifications. -/
def create_alert (db : DB) (transaction_id : Nat) (rule_code severity status : String) :
    Except String DB :=
  match alerts_insert db transaction_id rule_code
      (pyLower (if severity = "" then "high" else severity))
      (pyLower (if status = "" then "open" else status)) with
  | .error e => .error e
  | .ok db1 => .ok (mirror_notification db1 transaction_id rule_code)

/-! ### Store-side rule procedures (`run_db_rules`, `alerts.py` lines 206-219) -/

/-- A store-side rule procedure: given the store and a transaction id it
either raises (`.error`, e.g. the procedure is missing) or returns the
`(rule_code, severity)` alert rows it wants to insert for that transaction.
The rows are applied through the constrained `alerts_insert`; a failure
rolls the whole procedure call back. -/
def ProcModel : Type := DB → Nat → Except String (List (String × String))

/-- Insert the alert rows requested by a store-side procedure, stopping at
the first unique-violation. -/
def insertAlertsSeq (db : DB) (transaction_id : Nat) (reqs : List (String × String)) :
    Except String DB :=
  match reqs with
  | [] => .ok db
  | (code, sev) :: rest =>
    match alerts_insert db transaction_id code sev "open" with
    | .error e => .error e
    | .ok db1 => insertAlertsSeq db1 transaction_id rest

/-- One iteration of the loop in `run_db_rules`: `SELECT fn(%s)` inside
`try/except Exception: pass`.  A raising call is a rolled-back statement, so
the store is left unchanged. -/
def call_db_rule (proc : ProcModel) (db : DB) (transaction_id : Nat) : DB :=
  match proc db transaction_id with
  | .error _ => db
  | .ok reqs =>
    match insertAlertsSeq db transaction_id reqs with
    | .error _ => db
    | .ok db1 => db1

/-- `run_db_rules` (`alerts.py` lines 206-219): call `rule_new_device` then
`rule_velocity_3in2min`, each best-effort. -/
def run_db_rules (pNew pVel : ProcModel) (db : DB) (transaction_id : Nat) : DB :=
  call_db_rule pVel (call_db_rule pNew db transaction_id) transaction_id

/-- Modelled from the spec: the store-side procedure `rule_new_device`
(declared in the repository's schema file, which is not under `src/`) —
"a transaction from a device never before associated with the account"
raises its own alert row (spec §4.3 item 3). -/
def rule_new_device : ProcModel := fun db txid =>
  match db.transactions.find? (fun t => t.id == txid) with
  | none => .ok []
  | some t =>
    match t.device_id with
    | none => .ok []
    | some d =>
      if db.transactions.any
          (fun u => u.account_id == t.account_id && u.device_id == some d && u.id != txid)
      then .ok []
      else .ok [("NEW_DEVICE", "med")]

/-- Modelled from the spec: the store-side procedure `rule_velocity_3in2min`
(declared in the repository's schema file, which is not under `src/`) —
"three or more transactions for the same account within a two-minute
window" (spec §4.3 item 3); two minutes is `1/720` of a day in this model's
day-valued timestamps. -/
def rule_velocity_3in2min : ProcModel := fun db txid =>
  match db.transactions.find? (fun t => t.id == txid) with
  | none => .ok []
  | some t =>
    let recent := db.transactions.filter
      (fun u => u.account_id == t.account_id &&
        decide (t.ts - 1 / 720 ≤ u.ts) && decide (u.ts ≤ t.ts))
    if 3 ≤ recent.length then .ok [("VELOCITY_3IN2MIN", "med")] else .ok []

/-! ### Python rule engine (`run_rules_for_transaction`, `alerts.py` lines 224-281) -/

/-- `run_rules_for_transaction`: load the transaction, resolve the rule
configuration and merchant tier, fire the amount-threshold rule (debits
only), then the spike-vs-rolling-average rule, then the store-side rules.
The whole body sits in `try/except Exception: pass`; every `run_query`
commits on its own connection, so an exception keeps all statements that
already ran and skips the rest. -/
def run_rules_for_transaction (pNew pVel : ProcModel) (db : DB) (transaction_id : Nat) :
    DB :=
  match db.transactions.find? (fun t => t.id == transaction_id) with
  | none => db
  | some tx =>
    let amount := tx.amount
    let direction := pyLower tx.direction
    let cfg := get_alert_rule_for_account db (some tx.account_id)
    let risk_tier := _merchant_risk_tier db tx.merchant_id
    let step1 : Except String DB :=
      if direction = "debit" ∧ cfg.amount_threshold ≤ amount then
        create_alert db transaction_id "AMOUNT_THRESHOLD"
          (_severity_for_threshold amount cfg.amount_threshold risk_tier) "open"
      else .ok db
    match step1 with
    | .error _ => db
    | .ok db1 =>
      let step2 : Except String DB :=
        if 0 < cfg.lookback_days then
          let avg := rolling_avg_amount db1 tx.account_id cfg.lookback_days
          if 0 < avg ∧ cfg.spike_multiplier * avg ≤ amount then
            create_alert db1 transaction_id "SPIKE_VS_AVG"
              (_severity_for_spike_vs_avg amount avg risk_tier) "open"
          else .ok db1
        else .ok db1
      match step2 with
      | .error _ => db1
      | .ok db2 => run_db_rules pNew pVel db2 transaction_id

/-! ### Transaction ingestion (`insert_transaction`, `alerts.py` lines 286-363) -/

/-- The arguments of one `insert_transaction` call. -/
structure IngestReq where
  account_id : Nat
  merchant_id : Option Nat
  device_id : Option Nat
  amount : ℚ
  currency : String
  status : String
  ts_iso : Option ℚ
  direction : String
deriving DecidableEq, Repr

/-- The direction validation at the top of `insert_transaction`:
`(direction or "debit").lower()`, anything outside `{debit, credit}` becomes
`debit`. -/
def normalize_direction (direction : String) : String :=
  let d := pyLower (if direction = "" then "debit" else direction)
  if d = "debit" ∨ d = "credit" then d else "debit"

/-- The transaction row inserted by `insert_transaction`: fields as given,
normalized direction, timestamp from `ts_iso` or `NOW()`. -/
def mkTxn (db : DB) (r : IngestReq) : Txn :=
  { id := db.next_tx_id
    account_id := r.account_id
    merchant_id := r.merchant_id
    device_id := r.device_id
    amount := r.amount
    currency := r.currency
    direction := normalize_direction r.direction
    status := r.status
    ts := r.ts_iso.getD db.now }

/-- The signed balance delta of one ingestion:
`-amount` for a (normalized) debit, `+amount` for a credit. -/
def ingest_delta (r : IngestReq) : ℚ :=
  if normalize_direction r.direction = "debit" then -r.amount else r.amount

/-- `insert_transaction` (`alerts.py` lines 286-363): insert the transaction
row (`RETURNING id`), update the account balance by the signed delta, run
the rules (any exception swallowed), and return the transaction id. -/
def insert_transaction (pNew pVel : ProcModel) (db : DB) (r : IngestReq) : DB × Nat :=
  let tx := mkTxn db r
  let db1 := { db with
    transactions := db.transactions ++ [tx]
    next_tx_id := db.next_tx_id + 1 }
  let delta := if normalize_direction r.direction = "debit" then -r.amount else r.amount
  let db2 := { db1 with
    accounts := db1.accounts.map (fun a =>
      if a.id = r.account_id then { a with balance := a.balance + delta } else a) }
  (run_rules_for_transaction pNew pVel db2 tx.id, tx.id)

/-! ### Step-up verification (`portal.py`) -/

/-- The `UPDATE transactions SET status='declined'` step of
`create_portal_transaction` (`portal.py` lines 1465-1470) that parks a
flagged transaction pending PIN verification. -/
def mark_pending_verification (db : DB) (tx_id : Nat) : DB :=
  { db with transactions := db.transactions.map (fun t =>
      if t.id = tx_id then { t with status := "declined" } else t) }

/-- `confirm_suspicious_tx` (`portal.py` lines 1513-1606).  `check_password_hash`
is the externally provided hash comparison.  Flash messages, redirects and
the web-session `pending_tx_id` bookkeeping are not modelled. -/
def confirm_suspicious_tx (check_password_hash : String → String → Bool) (db : DB)
    (cid : Nat) (tx_id : Nat) (pin action : String) : DB :=
  let pin := pyStrip pin
  let action := pyLower (if action = "" then "approve" else action)
  match db.transactions.find? (fun t => t.id == tx_id) with
  | none => db
  | some tx =>
    if ¬ (db.accounts.any (fun a => a.id == tx.account_id && a.customer_id == cid)) then db
    else
      match db.customer_auth.find? (fun r => r.customer_id == cid) with
      | none => db
      | some au =>
        match au.pin_hash with
        | none => db
        | some h =>
          if h = "" then db
          else if ¬ check_password_hash h pin then db
          else if action = "approve" then
            let dbA := { db with alerts := db.alerts.map (fun (a : Alert) =>
              if a.transaction_id = tx_id then { a with status := "cleared" } else a) }
            { dbA with transactions := dbA.transactions.map (fun (t : Txn) =>
                if t.id = tx_id then { t with status := "approved" } else t) }
          else
            let delta := if tx.direction = "debit" then tx.amount else -tx.amount
            let dbB := { db with accounts := db.accounts.map (fun (a : Account) =>
              if a.id = tx.account_id then { a with balance := a.balance + delta } else a) }
            let dbC := { dbB with alerts := dbB.alerts.map (fun (a : Alert) =>
              if a.transaction_id = tx_id then { a with status := "confirmed" } else a) }
            let dbD := { dbC with transactions := dbC.transactions.map (fun (t : Txn) =>
              if t.id = tx_id then { t with status := "reversed" } else t) }
            if dbD.admin_notifs_exists then
              match dbD.customers.find? (fun (c : Customer) => c.id == cid) with
              | some c =>
                { dbD with admin_notifications := dbD.admin_notifications ++
                    [(cid, tx_id, s!"Customer {c.name} ({c.email}) reported transaction as fraudulent")] }
              | none => dbD
            else dbD

/-! ### Frame lemmas: the rule engine only writes alerts and notifications -/

/-- `db'` agrees with `db` on everything except possibly `alerts`,
`notifications`, `admin_notifications` and `next_alert_id`. -/
def AlertsOnly (db db' : DB) : Prop :=
  db'.accounts = db.accounts ∧ db'.transactions = db.transactions ∧
  db'.merchants = db.merchants ∧ db'.alert_rules = db.alert_rules ∧
  db'.customer_auth = db.customer_auth ∧ db'.customers = db.customers ∧
  db'.notif_mode = db.notif_mode ∧ db'.admin_notifs_exists = db.admin_notifs_exists ∧
  db'.next_tx_id = db.next_tx_id ∧ db'.now = db.now

theorem AlertsOnly.rfl (db : DB) : AlertsOnly db db := by
  simp [AlertsOnly]

theorem AlertsOnly.trans {db1 db2 db3 : DB} (h1 : AlertsOnly db1 db2)
    (h2 : AlertsOnly db2 db3) : AlertsOnly db1 db3 := by
  obtain ⟨a1, b1, c1, d1, e1, f1, g1, i1, j1, k1⟩ := h1
  obtain ⟨a2, b2, c2, d2, e2, f2, g2, i2, j2, k2⟩ := h2
  exact ⟨a2.trans a1, b2.trans b1, c2.trans c1, d2.trans d1, e2.trans e1,
    f2.trans f1, g2.trans g1, i2.trans i1, j2.trans j1, k2.trans k1⟩

/-- The alert row appended by a successful `alerts_insert`. -/
def newAlertRow (db : DB) (transaction_id : Nat) (rule_code severity status : String) :
    Alert :=
  { id := db.next_alert_id, transaction_id := transaction_id, rule_code := rule_code,
    severity := severity, status := status, created_ts := db.now }

theorem alerts_insert_ok {db db' : DB} {t : Nat} {c s st : String}
    (h : alerts_insert db t c s st = Except.ok db') :
    hasAlert db t c = false ∧ AlertsOnly db db' ∧
      db'.alerts = db.alerts ++ [newAlertRow db t c s st] := by
  unfold alerts_insert at h
  split at h
  · exact Except.noConfusion h
  · next hguard =>
    injection h with h
    subst h
    exact ⟨by simpa using hguard, by simp [AlertsOnly], by simp [newAlertRow]⟩

theorem alerts_insert_err {db : DB} {t : Nat} {c s st : String}
    (h : hasAlert db t c = true) :
    alerts_insert db t c s st = Except.error "unique_violation" := by
  simp [alerts_insert, h]

theorem mirror_notification_spec (db : DB) (t : Nat) (c : String) :
    AlertsOnly db (mirror_notification db t c) ∧
      (mirror_notification db t c).alerts = db.alerts := by
  unfold mirror_notification
  split
  · exact ⟨by simp [AlertsOnly], rfl⟩
  · split
    · exact ⟨AlertsOnly.rfl db, rfl⟩
    · exact ⟨by simp [AlertsOnly], rfl⟩
  · exact ⟨AlertsOnly.rfl db, rfl⟩

theorem create_alert_ok {db db' : DB} {t : Nat} {c sev st : String}
    (h : create_alert db t c sev st = Except.ok db') :
    hasAlert db t c = false ∧ AlertsOnly db db' ∧
      db'.alerts = db.alerts ++
        [newAlertRow db t c (pyLower (if sev = "" then "high" else sev))
          (pyLower (if st = "" then "open" else st))] := by
  unfold create_alert at h
  split at h
  · exact Except.noConfusion h
  · next db1 hins =>
    injection h with h
    subst h
    obtain ⟨hguard, honly, halerts⟩ := alerts_insert_ok hins
    obtain ⟨honly2, halerts2⟩ := mirror_notification_spec db1 t c
    exact ⟨hguard, honly.trans honly2, by rw [halerts2, halerts]⟩

theorem create_alert_of_fresh {db : DB} {t : Nat} {c sev st : String}
    (h : hasAlert db t c = false) :
    ∃ db', create_alert db t c sev st = Except.ok db' := by
  refine ⟨mirror_notification ({ db with
    alerts := db.alerts ++ [newAlertRow db t c (pyLower (if sev = "" then "high" else sev))
      (pyLower (if st = "" then "open" else st))]
    next_alert_id := db.next_alert_id + 1 }) t c, ?_⟩
  unfold create_alert alerts_insert
  simp only [h, Bool.false_eq_true, if_false, newAlertRow]

theorem create_alert_err {db : DB} {t : Nat} {c sev st : String}
    (h : hasAlert db t c = true) :
    create_alert db t c sev st = Except.error "unique_violation" := by
  unfold create_alert
  rw [@alerts_insert_err db t c (pyLower (if sev = "" then "high" else sev))
    (pyLower (if st = "" then "open" else st)) h]

end FraudCore

namespace FraudCore

theorem pyLower_low : pyLower "low" = "low" := by decide

theorem pyLower_med : pyLower "med" = "med" := by decide

theorem pyLower_high : pyLower "high" = "high" := by decide

end FraudCore

namespace FraudCore

/-- Claim C6: for every amount, threshold and risk tier,
`_severity_for_threshold` returns `high` whenever the tier is `low`; for
tier `med` it returns `high` iff `amount ≥ 2 × threshold` and `med`
otherwise; for tier `high` it returns `med` iff `amount ≥ 3 × threshold`
and `low` otherwise — with exact `≥` cutoffs, so in particular
`_severity_for_threshold 399 200 "med" = "med"` and
`_severity_for_threshold 400 200 "med" = "high"`. -/
theorem severity_for_threshold_spec (amount threshold : ℚ) :
    _severity_for_threshold amount threshold "low" = "high"
    ∧ _severity_for_threshold amount threshold "med" =
        (if 2 * threshold ≤ amount then "high" else "med")
    ∧ _severity_for_threshold amount threshold "high" =
        (if 3 * threshold ≤ amount then "med" else "low")
    ∧ _severity_for_threshold 399 200 "med" = "med"
    ∧ _severity_for_threshold 400 200 "med" = "high" := by
  refine ⟨?_, ?_, ?_, ?_, ?_⟩
  · simp [_severity_for_threshold, pyLower_low]
  · simp [_severity_for_threshold, pyLower_med, mul_comm]
  · simp [_severity_for_threshold, pyLower_high, mul_comm]
  · norm_num [_severity_for_threshold, pyLower_med]
    try decide
  · norm_num [_severity_for_threshold, pyLower_med]
    try decide

/-- Claim C7: for every amount and rolling average,
`_severity_for_spike_vs_avg` computes `ratio = amount / avg` guarded to `0`
when the average is not positive, and returns: tier `low` → `high` iff
`ratio ≥ 2`; tier `med` → `high` iff `ratio ≥ 3`; tier `high` → `med` iff
`ratio ≥ 4`, else `low` — with exact `≥` cutoffs; an average of `0` yields
ratio `0` and hence the non-escalated label for every tier. -/
theorem severity_for_spike_spec (amount avg : ℚ) :
    _severity_for_spike_vs_avg amount avg "low" =
      (if 2 ≤ (if 0 < avg then amount / avg else 0) then "high" else "med")
    ∧ _severity_for_spike_vs_avg amount avg "med" =
      (if 3 ≤ (if 0 < avg then amount / avg else 0) then "high" else "med")
    ∧ _severity_for_spike_vs_avg amount avg "high" =
      (if 4 ≤ (if 0 < avg then amount / avg else 0) then "med" else "low")
    ∧ _severity_for_spike_vs_avg amount 0 "low" = "med"
    ∧ _severity_for_spike_vs_avg amount 0 "med" = "med"
    ∧ _severity_for_spike_vs_avg amount 0 "high" = "low" := by
  refine ⟨?_, ?_, ?_, ?_, ?_, ?_⟩
  · simp [_severity_for_spike_vs_avg, pyLower_low]
  · simp [_severity_for_spike_vs_avg, pyLower_med]
  · simp [_severity_for_spike_vs_avg, pyLower_high]
  · norm_num [_severity_for_spike_vs_avg, pyLower_low]
    try decide
  · norm_num [_severity_for_spike_vs_avg, pyLower_med]
    try decide
  · norm_num [_severity_for_spike_vs_avg, pyLower_high]
    try decide

end FraudCore

namespace FraudCore

/-! ### Alert uniqueness invariant -/

/-- No two alert rows share the same `(transaction_id, rule_code)` pair. -/
def alertsUnique (db : DB) : Prop :=
  db.alerts.Pairwise
    (fun a b => ¬ (a.transaction_id = b.transaction_id ∧ a.rule_code = b.rule_code))

theorem hasAlert_eq_false_iff {db : DB} {t : Nat} {c : String} :
    hasAlert db t c = false ↔
      ∀ a ∈ db.alerts, ¬ (a.transaction_id = t ∧ a.rule_code = c) := by
  simp [hasAlert, List.any_eq_false]

theorem alertsUnique_append_row {db : DB} {t : Nat} {c : String} {row : Alert}
    (hu : alertsUnique db) (hguard : hasAlert db t c = false)
    (hrow_t : row.transaction_id = t) (hrow_c : row.rule_code = c) :
    (db.alerts ++ [row]).Pairwise
      (fun a b => ¬ (a.transaction_id = b.transaction_id ∧ a.rule_code = b.rule_code)) := by
  rw [List.pairwise_append]
  refine ⟨hu, by simp, ?_⟩
  intro a ha b hb
  rw [List.mem_singleton] at hb
  subst hb
  rw [hrow_t, hrow_c]
  exact hasAlert_eq_false_iff.mp hguard a ha

theorem alertsUnique_alerts_insert {db db' : DB} {t : Nat} {c s st : String}
    (hu : alertsUnique db) (h : alerts_insert db t c s st = Except.ok db') :
    alertsUnique db' := by
  obtain ⟨hguard, _, halerts⟩ := alerts_insert_ok h
  rw [alertsUnique, halerts]
  exact alertsUnique_append_row hu hguard rfl rfl

theorem alertsUnique_create_alert {db db' : DB} {t : Nat} {c sev st : String}
    (hu : alertsUnique db) (h : create_alert db t c sev st = Except.ok db') :
    alertsUnique db' := by
  obtain ⟨hguard, _, halerts⟩ := create_alert_ok h
  rw [alertsUnique, halerts]
  exact alertsUnique_append_row hu hguard rfl rfl

theorem alertsUnique_insertAlertsSeq {t : Nat} :
    ∀ (reqs : List (String × String)) (db db' : DB), alertsUnique db →
      insertAlertsSeq db t reqs = Except.ok db' → alertsUnique db' := by
  intro reqs
  induction reqs with
  | nil =>
    intro db db' hu h
    injection h with h
    subst h
    exact hu
  | cons q rest ih =>
    intro db db' hu h
    unfold insertAlertsSeq at h
    split at h
    · exact Except.noConfusion h
    · next db1 hins =>
      exact ih db1 db' (alertsUnique_alerts_insert hu hins) h

theorem alertsUnique_call_db_rule (p : ProcModel) (db : DB) (t : Nat)
    (hu : alertsUnique db) : alertsUnique (call_db_rule p db t) := by
  unfold call_db_rule
  split
  · exact hu
  · split
    · exact hu
    · next db1 hseq => exact alertsUnique_insertAlertsSeq _ _ _ hu hseq

theorem alertsUnique_run_db_rules (pNew pVel : ProcModel) (db : DB) (t : Nat)
    (hu : alertsUnique db) : alertsUnique (run_db_rules pNew pVel db t) :=
  alertsUnique_call_db_rule _ _ _ (alertsUnique_call_db_rule _ _ _ hu)

theorem alertsUnique_run_rules (pNew pVel : ProcModel) (db : DB) (txid : Nat)
    (hu : alertsUnique db) :
    alertsUnique (run_rules_for_transaction pNew pVel db txid) := by
  unfold run_rules_for_transaction
  split
  · exact hu
  · simp only []
    split
    · exact hu
    · next db1 h1 =>
      have hu1 : alertsUnique db1 := by
        split at h1
        · exact alertsUnique_create_alert hu h1
        · injection h1 with h1
          subst h1
          exact hu
      split
      · exact hu1
      · next db2 h2 =>
        have hu2 : alertsUnique db2 := by
          split at h2
          · split at h2
            · exact alertsUnique_create_alert hu1 h2
            · injection h2 with h2
              subst h2
              exact hu1
          · injection h2 with h2
            subst h2
            exact hu1
        exact alertsUnique_run_db_rules _ _ _ _ hu2

theorem alertsUnique_insert_transaction (pNew pVel : ProcModel) (db : DB)
    (r : IngestReq) (hu : alertsUnique db) :
    alertsUnique (insert_transaction pNew pVel db r).1 := by
  unfold insert_transaction
  exact alertsUnique_run_rules _ _ _ _ hu

/-- A rowwise map that keeps `transaction_id` and `rule_code` (such as the
status updates of the step-up workflow) preserves pairwise distinctness of
`(transaction_id, rule_code)`. -/
theorem alertsUnique_map_status (l : List Alert) (f : Alert → Alert)
    (hf : ∀ a, (f a).transaction_id = a.transaction_id ∧ (f a).rule_code = a.rule_code)
    (hp : l.Pairwise
      (fun a b => ¬ (a.transaction_id = b.transaction_id ∧ a.rule_code = b.rule_code))) :
    (l.map f).Pairwise
      (fun a b => ¬ (a.transaction_id = b.transaction_id ∧ a.rule_code = b.rule_code)) := by
  refine List.Pairwise.map f (fun a b hab => ?_) hp
  rw [(hf a).1, (hf a).2, (hf b).1, (hf b).2]
  exact hab

theorem alertsUnique_mark_pending (db : DB) (tid : Nat) (hu : alertsUnique db) :
    alertsUnique (mark_pending_verification db tid) := hu

theorem alertsUnique_confirm (chk : String → String → Bool) (db : DB)
    (cid tid : Nat) (pin action : String) (hu : alertsUnique db) :
    alertsUnique (confirm_suspicious_tx chk db cid tid pin action) := by
  unfold confirm_suspicious_tx
  simp only []
  repeat' split
  all_goals first
    | exact hu
    | exact alertsUnique_map_status _ _ (fun a => by split <;> exact ⟨rfl, rfl⟩) hu

end FraudCore

namespace FraudCore

/-- A concrete store used to witness the uniqueness invariant. -/
def exDbU : DB :=
  { accounts := []
    transactions := []
    alerts := [{ id := 1, transaction_id := 5, rule_code := "AMOUNT_THRESHOLD",
                 severity := "high", status := "open", created_ts := 0 },
               { id := 2, transaction_id := 5, rule_code := "SPIKE_VS_AVG",
                 severity := "med", status := "open", created_ts := 0 }]
    merchants := []
    alert_rules := none
    customer_auth := []
    customers := []
    notif_mode := none
    notifications := []
    admin_notifs_exists := false
    admin_notifications := []
    next_tx_id := 1
    next_alert_id := 3
    now := 0 }

/-- Claim C2: alert uniqueness per `(transaction_id, rule_code)` is an
invariant: it is preserved by any number of re-evaluations of the rule
engine on the same transaction, by `insert_transaction`, by the step-up
confirmation flow, and by the pending-verification marking — for every
behaviour of the store-side rule procedures. -/
theorem alert_pair_uniqueness (pNew pVel : ProcModel) (db : DB) (txid n : Nat)
    (r : IngestReq) (chk : String → String → Bool) (cid tid : Nat)
    (pin action : String) (h : alertsUnique db) :
    alertsUnique ((fun d => run_rules_for_transaction pNew pVel d txid)^[n] db)
    ∧ alertsUnique (insert_transaction pNew pVel db r).1
    ∧ alertsUnique (confirm_suspicious_tx chk db cid tid pin action)
    ∧ alertsUnique (mark_pending_verification db tid) := by
  refine ⟨?_, alertsUnique_insert_transaction _ _ _ _ h,
    alertsUnique_confirm _ _ _ _ _ _ h, alertsUnique_mark_pending _ _ h⟩
  induction n with
  | zero => simpa using h
  | succ n ih =>
    rw [Function.iterate_succ_apply']
    exact alertsUnique_run_rules _ _ _ _ ih

/-- Witness for C2 at a concrete store, transaction and double re-evaluation. -/
theorem alert_pair_uniqueness_witness :
    alertsUnique exDbU ∧
      alertsUnique
        ((fun d => run_rules_for_transaction rule_new_device rule_velocity_3in2min d 5)^[2]
          exDbU) := by
  have h : alertsUnique exDbU := by
    simp only [alertsUnique, exDbU]
    refine List.Pairwise.cons (fun b hb hpair => ?_) (by simp)
    rw [List.mem_singleton] at hb
    subst hb
    exact absurd hpair.2 (by decide)
  exact ⟨h, (alert_pair_uniqueness rule_new_device rule_velocity_3in2min exDbU 5 2
    { account_id := 1, merchant_id := none, device_id := none, amount := 1,
      currency := "USD", status := "approved", ts_iso := none, direction := "debit" }
    (fun _ _ => true) 1 5 "" "" h).1⟩

end FraudCore

namespace FraudCore

/-! ### Alerts-only frame for the whole rule engine -/

theorem insertAlertsSeq_alertsOnly {t : Nat} :
    ∀ (reqs : List (String × String)) (db db' : DB),
      insertAlertsSeq db t reqs = Except.ok db' → AlertsOnly db db' := by
  intro reqs
  induction reqs with
  | nil =>
    intro db db' h
    injection h with h
    subst h
    exact AlertsOnly.rfl db
  | cons q rest ih =>
    intro db db' h
    unfold insertAlertsSeq at h
    split at h
    · exact Except.noConfusion h
    · next db1 hins =>
      exact ((alerts_insert_ok hins).2.1).trans (ih db1 db' h)

theorem call_db_rule_alertsOnly (p : ProcModel) (db : DB) (t : Nat) :
    AlertsOnly db (call_db_rule p db t) := by
  unfold call_db_rule
  split
  · exact AlertsOnly.rfl db
  · split
    · exact AlertsOnly.rfl db
    · next db1 hseq => exact insertAlertsSeq_alertsOnly _ _ _ hseq

theorem run_db_rules_alertsOnly (pNew pVel : ProcModel) (db : DB) (t : Nat) :
    AlertsOnly db (run_db_rules pNew pVel db t) :=
  (call_db_rule_alertsOnly pNew db t).trans
    (call_db_rule_alertsOnly pVel (call_db_rule pNew db t) t)

theorem run_rules_alertsOnly (pNew pVel : ProcModel) (db : DB) (txid : Nat) :
    AlertsOnly db (run_rules_for_transaction pNew pVel db txid) := by
  unfold run_rules_for_transaction
  split
  · exact AlertsOnly.rfl db
  · simp only []
    split
    · exact AlertsOnly.rfl db
    · next db1 h1 =>
      have ho1 : AlertsOnly db db1 := by
        split at h1
        · exact (create_alert_ok h1).2.1
        · injection h1 with h1
          subst h1
          exact AlertsOnly.rfl db
      split
      · exact ho1
      · next db2 h2 =>
        have ho2 : AlertsOnly db db2 := by
          split at h2
          · split at h2
            · exact ho1.trans (create_alert_ok h2).2.1
            · injection h2 with h2
              subst h2
              exact ho1
          · injection h2 with h2
            subst h2
            exact ho1
        exact ho2.trans (run_db_rules_alertsOnly _ _ db2 txid)

/-! ### Alerts extension: the rule engine only appends alert rows -/

theorem insertAlertsSeq_alerts_ext {t : Nat} :
    ∀ (reqs : List (String × String)) (db db' : DB),
      insertAlertsSeq db t reqs = Except.ok db' →
      ∃ l, db'.alerts = db.alerts ++ l := by
  intro reqs
  induction reqs with
  | nil =>
    intro db db' h
    injection h with h
    subst h
    exact ⟨[], by simp⟩
  | cons q rest ih =>
    intro db db' h
    unfold insertAlertsSeq at h
    split at h
    · exact Except.noConfusion h
    · next db1 hins =>
      obtain ⟨l, hl⟩ := ih db1 db' h
      obtain ⟨_, _, halerts⟩ := alerts_insert_ok hins
      exact ⟨_, by rw [hl, halerts, List.append_assoc]⟩

theorem call_db_rule_alerts_ext (p : ProcModel) (db : DB) (t : Nat) :
    ∃ l, (call_db_rule p db t).alerts = db.alerts ++ l := by
  unfold call_db_rule
  split
  · exact ⟨[], by simp⟩
  · split
    · exact ⟨[], by simp⟩
    · next db1 hseq => exact insertAlertsSeq_alerts_ext _ _ _ hseq

theorem run_db_rules_alerts_ext (pNew pVel : ProcModel) (db : DB) (t : Nat) :
    ∃ l, (run_db_rules pNew pVel db t).alerts = db.alerts ++ l := by
  obtain ⟨l1, h1⟩ := call_db_rule_alerts_ext pNew db t
  obtain ⟨l2, h2⟩ := call_db_rule_alerts_ext pVel (call_db_rule pNew db t) t
  exact ⟨l1 ++ l2, by rw [run_db_rules, h2, h1, List.append_assoc]⟩

end FraudCore

namespace FraudCore

/-! ### Ingestion: the financial write always commits -/

/-- The fields of the store after one `insert_transaction`, for every
behaviour of the store-side rule procedures: the transaction row is
appended, the balance of the account is moved by the signed delta, the id
returned is the new row's id, and nothing else changes except alerts and
notifications. -/
theorem insert_transaction_fields (pNew pVel : ProcModel) (db : DB) (r : IngestReq) :
    (insert_transaction pNew pVel db r).2 = db.next_tx_id
    ∧ (insert_transaction pNew pVel db r).1.transactions = db.transactions ++ [mkTxn db r]
    ∧ (insert_transaction pNew pVel db r).1.accounts =
        db.accounts.map (fun a =>
          if a.id = r.account_id then { a with balance := a.balance + ingest_delta r } else a)
    ∧ (insert_transaction pNew pVel db r).1.merchants = db.merchants
    ∧ (insert_transaction pNew pVel db r).1.alert_rules = db.alert_rules
    ∧ (insert_transaction pNew pVel db r).1.customer_auth = db.customer_auth
    ∧ (insert_transaction pNew pVel db r).1.customers = db.customers
    ∧ (insert_transaction pNew pVel db r).1.admin_notifs_exists = db.admin_notifs_exists
    ∧ (insert_transaction pNew pVel db r).1.next_tx_id = db.next_tx_id + 1
    ∧ (insert_transaction pNew pVel db r).1.now = db.now := by
  unfold insert_transaction
  simp only [ingest_delta]
  refine ⟨rfl, ?_, ?_, ?_, ?_, ?_, ?_, ?_, ?_, ?_⟩
  · rw [(run_rules_alertsOnly pNew pVel _ _).2.1]
  · rw [(run_rules_alertsOnly pNew pVel _ _).1]
  · rw [(run_rules_alertsOnly pNew pVel _ _).2.2.1]
  · rw [(run_rules_alertsOnly pNew pVel _ _).2.2.2.1]
  · rw [(run_rules_alertsOnly pNew pVel _ _).2.2.2.2.1]
  · rw [(run_rules_alertsOnly pNew pVel _ _).2.2.2.2.2.1]
  · rw [(run_rules_alertsOnly pNew pVel _ _).2.2.2.2.2.2.2.1]
  · rw [(run_rules_alertsOnly pNew pVel _ _).2.2.2.2.2.2.2.2.1]
  · rw [(run_rules_alertsOnly pNew pVel _ _).2.2.2.2.2.2.2.2.2]

/-- Signed sum of the ingested deltas that target account `aid`. -/
def sumSigned (reqs : List IngestReq) (aid : Nat) : ℚ :=
  ((reqs.filter (fun r => r.account_id == aid)).map ingest_delta).sum

/-- Fold a sequence of `insert_transaction` calls over the store. -/
def ingestAll (pNew pVel : ProcModel) (db : DB) (reqs : List IngestReq) : DB :=
  reqs.foldl (fun d r => (insert_transaction pNew pVel d r).1) db

theorem sumSigned_cons (r : IngestReq) (reqs : List IngestReq) (aid : Nat) :
    sumSigned (r :: reqs) aid =
      (if r.account_id = aid then ingest_delta r else 0) + sumSigned reqs aid := by
  by_cases h : r.account_id = aid <;>
    simp [sumSigned, List.filter_cons, h]

end FraudCore

namespace FraudCore

/-- Claim C1: for every store, every sequence of `insert_transaction` calls
and every behaviour of the store-side rule procedures, each account balance
ends at its initial value plus the signed sum of the ingested deltas that
target it (`+amount` for credits, `-amount` for debits), regardless of
which alerts fire or fail. -/
theorem balance_additivity (pNew pVel : ProcModel) (db : DB) (reqs : List IngestReq) :
    (ingestAll pNew pVel db reqs).accounts =
      db.accounts.map (fun a => { a with balance := a.balance + sumSigned reqs a.id }) := by
  induction reqs generalizing db with
  | nil =>
    have hpt : ∀ a : Account,
        ({ a with balance := a.balance + sumSigned [] a.id } : Account) = a := by
      intro a
      have h0 : sumSigned [] a.id = 0 := by simp [sumSigned]
      rw [h0, add_zero]
    simp only [ingestAll, List.foldl_nil]
    rw [List.map_congr_left (fun a _ => hpt a)]
    exact (List.map_id _).symm
  | cons r rest ih =>
    have hstep := (insert_transaction_fields pNew pVel db r).2.2.1
    have hfold : ingestAll pNew pVel db (r :: rest) =
        ingestAll pNew pVel (insert_transaction pNew pVel db r).1 rest := rfl
    rw [hfold, ih, hstep, List.map_map]
    refine List.map_congr_left (fun a _ => ?_)
    by_cases h : a.id = r.account_id
    · simp only [Function.comp_apply, h, if_pos, sumSigned_cons]
      simp [add_assoc]
    · have h2 : ¬ (r.account_id = a.id) := fun hc => h hc.symm
      simp only [Function.comp_apply, sumSigned_cons, if_neg h, if_neg h2]
      simp

/-- Claim C5: for every behaviour of the store-side rule procedures
(including raising ones) and any rule-evaluation outcome, one
`insert_transaction` call always leaves the inserted transaction row and
the balance update in the store and returns the new transaction id — a
detection failure never rolls back the financial write. -/
theorem ingestion_always_commits (pNew pVel : ProcModel) (db : DB) (r : IngestReq) :
    (insert_transaction pNew pVel db r).2 = db.next_tx_id
    ∧ (insert_transaction pNew pVel db r).1.transactions = db.transactions ++ [mkTxn db r]
    ∧ (insert_transaction pNew pVel db r).1.accounts =
        db.accounts.map (fun a =>
          if a.id = r.account_id then { a with balance := a.balance + ingest_delta r } else a) :=
  ⟨(insert_transaction_fields pNew pVel db r).1,
   (insert_transaction_fields pNew pVel db r).2.1,
   (insert_transaction_fields pNew pVel db r).2.2.1⟩

end FraudCore

namespace FraudCore

/-! ### Step-up confirmation path characterizations -/

theorem find?_append_right {α} (l1 l2 : List α) (p : α → Bool)
    (h : ∀ x ∈ l1, p x = false) :
    (l1 ++ l2).find? p = l2.find? p := by
  rw [List.find?_append, List.find?_eq_none.mpr (fun x hx => by simp [h x hx])]
  rfl

theorem status_of_map_tx (l : List Txn) (txid : Nat) (st : String) :
    ∀ u ∈ l.map (fun t => if t.id = txid then { t with status := st } else t),
      u.id = txid → u.status = st := by
  intro u hu hid
  obtain ⟨v, hv, rfl⟩ := List.mem_map.mp hu
  by_cases h : v.id = txid
  · simp [h]
  · rw [if_neg h] at hid
    exact absurd hid h

theorem status_of_map_alert (l : List Alert) (txid : Nat) (st : String) :
    ∀ u ∈ l.map (fun a => if a.transaction_id = txid then { a with status := st } else a),
      u.transaction_id = txid → u.status = st := by
  intro u hu hid
  obtain ⟨v, hv, rfl⟩ := List.mem_map.mp hu
  by_cases h : v.transaction_id = txid
  · simp [h]
  · rw [if_neg h] at hid
    exact absurd hid h

theorem normalize_direction_cases (d : String) :
    normalize_direction d = "debit" ∨ normalize_direction d = "credit" := by
  unfold normalize_direction
  simp only []
  by_cases h : pyLower (if d = "" then "debit" else d) = "debit" ∨
      pyLower (if d = "" then "debit" else d) = "credit"
  · rw [if_pos h]
    exact h
  · rw [if_neg h]
    exact Or.inl rfl

theorem delta_cancel (r : IngestReq) :
    ingest_delta r +
      (if normalize_direction r.direction = "debit" then r.amount else -r.amount) = 0 := by
  unfold ingest_delta
  rcases normalize_direction_cases r.direction with h | h
  · rw [h]
    simp
  · have hne : normalize_direction r.direction ≠ "debit" := by
      rw [h]
      decide
    rw [if_neg hne, if_neg hne]
    simp

/-- The deny branch of `confirm_suspicious_tx`: with a found owned
transaction, a stored non-empty PIN hash and a passing hash check, the
balance delta is reversed, alerts become `confirmed`, the transaction
becomes `reversed`, and possibly one admin notification is appended. -/
theorem confirm_deny_eq (chk : String → String → Bool) (db : DB) (cid tx_id : Nat)
    (pin : String) (tx : Txn) (au : AuthRow) (hsh : String)
    (hfind : db.transactions.find? (fun t => t.id == tx_id) = some tx)
    (hown : (db.accounts.any (fun a => a.id == tx.account_id && a.customer_id == cid)) = true)
    (hau : db.customer_auth.find? (fun x => x.customer_id == cid) = some au)
    (hpin : au.pin_hash = some hsh) (hne : hsh ≠ "")
    (hchk : chk hsh (pyStrip pin) = true) :
    ∃ extra, confirm_suspicious_tx chk db cid tx_id pin "deny" =
      { db with
        accounts := db.accounts.map (fun (a : Account) =>
          if a.id = tx.account_id then
            { a with balance := a.balance +
                (if tx.direction = "debit" then tx.amount else -tx.amount) }
          else a)
        alerts := db.alerts.map (fun (a : Alert) =>
          if a.transaction_id = tx_id then { a with status := "confirmed" } else a)
        transactions := db.transactions.map (fun (t : Txn) =>
          if t.id = tx_id then { t with status := "reversed" } else t)
        admin_notifications := db.admin_notifications ++ extra } := by
  have hact : pyLower (if ("deny" : String) = "" then "approve" else "deny") = "deny" := by
    decide
  have hnotappr : ("deny" : String) ≠ "approve" := by decide
  unfold confirm_suspicious_tx
  simp only [hfind, hown, hau, hpin, hact]
  rw [if_neg (by simp), if_neg (by simpa using hne), if_neg (by simp [hchk]),
    if_neg hnotappr]
  by_cases hadm : db.admin_notifs_exists
  · simp only [hadm, if_true]
    rcases hcust : db.customers.find? (fun (c : Customer) => c.id == cid) with _ | c
    · exact ⟨[], by simp [hcust]⟩
    · refine ⟨[(cid, tx_id,
        s!"Customer {c.name} ({c.email}) reported transaction as fraudulent")], ?_⟩
      simp [hcust]
  · simp only [hadm, if_false]
    exact ⟨[], by simp⟩

/-- The approve branch of `confirm_suspicious_tx`: alerts become `cleared`,
the transaction becomes `approved`, and nothing else changes — in
particular no balance update is performed. -/
theorem confirm_approve_eq (chk : String → String → Bool) (db : DB) (cid tx_id : Nat)
    (pin : String) (tx : Txn) (au : AuthRow) (hsh : String)
    (hfind : db.transactions.find? (fun t => t.id == tx_id) = some tx)
    (hown : (db.accounts.any (fun a => a.id == tx.account_id && a.customer_id == cid)) = true)
    (hau : db.customer_auth.find? (fun x => x.customer_id == cid) = some au)
    (hpin : au.pin_hash = some hsh) (hne : hsh ≠ "")
    (hchk : chk hsh (pyStrip pin) = true) :
    confirm_suspicious_tx chk db cid tx_id pin "approve" =
      { db with
        alerts := db.alerts.map (fun (a : Alert) =>
          if a.transaction_id = tx_id then { a with status := "cleared" } else a)
        transactions := db.transactions.map (fun (t : Txn) =>
          if t.id = tx_id then { t with status := "approved" } else t) } := by
  have hact : pyLower (if ("approve" : String) = "" then "approve" else "approve")
      = "approve" := by decide
  unfold confirm_suspicious_tx
  simp only [hfind, hown, hau, hpin, hact]
  rw [if_neg (by simp), if_neg (by simpa using hne), if_neg (by simp [hchk])]
  simp

end FraudCore

namespace FraudCore

/-- Claim C4: a transaction that is ingested, parked for step-up
verification, and then denied with the correct PIN ends with the account
rows exactly as before the ingestion (the delta is reversed with the
opposite sign), the transaction status `reversed`, and every alert on the
transaction `confirmed` — for every behaviour of the store-side rule
procedures. -/
theorem deny_reverses_ingestion (pNew pVel : ProcModel) (chk : String → String → Bool)
    (db : DB) (r : IngestReq) (cid : Nat) (pin : String) (au : AuthRow) (hsh : String)
    (hfresh : ∀ u ∈ db.transactions, u.id ≠ db.next_tx_id)
    (hown : (db.accounts.any (fun a => a.id == r.account_id && a.customer_id == cid)) = true)
    (hau : db.customer_auth.find? (fun x => x.customer_id == cid) = some au)
    (hpin : au.pin_hash = some hsh) (hne : hsh ≠ "")
    (hchk : chk hsh (pyStrip pin) = true) :
    (confirm_suspicious_tx chk
        (mark_pending_verification (insert_transaction pNew pVel db r).1
          (insert_transaction pNew pVel db r).2)
        cid (insert_transaction pNew pVel db r).2 pin "deny").accounts = db.accounts
    ∧ (∀ u ∈ (confirm_suspicious_tx chk
        (mark_pending_verification (insert_transaction pNew pVel db r).1
          (insert_transaction pNew pVel db r).2)
        cid (insert_transaction pNew pVel db r).2 pin "deny").transactions,
        u.id = (insert_transaction pNew pVel db r).2 → u.status = "reversed")
    ∧ (∀ a ∈ (confirm_suspicious_tx chk
        (mark_pending_verification (insert_transaction pNew pVel db r).1
          (insert_transaction pNew pVel db r).2)
        cid (insert_transaction pNew pVel db r).2 pin "deny").alerts,
        a.transaction_id = (insert_transaction pNew pVel db r).2 →
          a.status = "confirmed") := by
  obtain ⟨hsnd, htx, hacc, _, _, hca, _, _, _, _⟩ := insert_transaction_fields pNew pVel db r
  simp only [hsnd]
  have hPtx : (mark_pending_verification (insert_transaction pNew pVel db r).1
      db.next_tx_id).transactions
      = db.transactions ++ [{ mkTxn db r with status := "declined" }] := by
    show ((insert_transaction pNew pVel db r).1.transactions.map (fun t =>
      if t.id = db.next_tx_id then { t with status := "declined" } else t)) = _
    rw [htx, List.map_append]
    congr 1
    · rw [List.map_congr_left (fun u hu => if_neg (hfresh u hu))]
      exact List.map_id _
    · simp [mkTxn]
  have hfindP : (mark_pending_verification (insert_transaction pNew pVel db r).1
      db.next_tx_id).transactions.find? (fun t => t.id == db.next_tx_id)
      = some { mkTxn db r with status := "declined" } := by
    rw [hPtx, find?_append_right _ _ _ (fun u hu => by
      simpa using hfresh u hu)]
    simp [mkTxn]
  have hPacc : (mark_pending_verification (insert_transaction pNew pVel db r).1
      db.next_tx_id).accounts
      = db.accounts.map (fun a =>
          if a.id = r.account_id then { a with balance := a.balance + ingest_delta r } else a) :=
    hacc
  have hownP : (mark_pending_verification (insert_transaction pNew pVel db r).1
      db.next_tx_id).accounts.any (fun a =>
        a.id == ({ mkTxn db r with status := "declined" } : Txn).account_id &&
          a.customer_id == cid) = true := by
    show (mark_pending_verification (insert_transaction pNew pVel db r).1
      db.next_tx_id).accounts.any (fun a =>
        a.id == r.account_id && a.customer_id == cid) = true
    rw [hPacc, List.any_map]
    have hfun : ((fun (a : Account) => a.id == r.account_id && a.customer_id == cid) ∘
        (fun a => if a.id = r.account_id then
          { a with balance := a.balance + ingest_delta r } else a))
        = fun (a : Account) => a.id == r.account_id && a.customer_id == cid := by
      funext a
      by_cases h : a.id = r.account_id <;> simp [Function.comp, h]
    rw [hfun]
    exact hown
  have hauP : (mark_pending_verification (insert_transaction pNew pVel db r).1
      db.next_tx_id).customer_auth.find? (fun x => x.customer_id == cid) = some au := by
    show (insert_transaction pNew pVel db r).1.customer_auth.find?
      (fun x => x.customer_id == cid) = some au
    rw [hca]
    exact hau
  obtain ⟨extra, heq⟩ := confirm_deny_eq chk _ cid db.next_tx_id pin _ au hsh
    hfindP hownP hauP hpin hne hchk
  rw [heq]
  refine ⟨?_, ?_, ?_⟩
  · show (mark_pending_verification (insert_transaction pNew pVel db r).1
      db.next_tx_id).accounts.map (fun (a : Account) =>
        if a.id = ({ mkTxn db r with status := "declined" } : Txn).account_id then
          { a with balance := a.balance +
            (if ({ mkTxn db r with status := "declined" } : Txn).direction = "debit"
              then ({ mkTxn db r with status := "declined" } : Txn).amount
              else -({ mkTxn db r with status := "declined" } : Txn).amount) }
        else a) = db.accounts
    rw [hPacc, List.map_map]
    have hpt : ∀ a : Account,
        ((fun (a : Account) =>
          if a.id = ({ mkTxn db r with status := "declined" } : Txn).account_id then
            { a with balance := a.balance +
              (if ({ mkTxn db r with status := "declined" } : Txn).direction = "debit"
                then ({ mkTxn db r with status := "declined" } : Txn).amount
                else -({ mkTxn db r with status := "declined" } : Txn).amount) }
          else a) ∘
          (fun a => if a.id = r.account_id then
            { a with balance := a.balance + ingest_delta r } else a)) a = a := by
      intro a
      obtain ⟨aid, acid, abal⟩ := a
      by_cases h : aid = r.account_id
      · have hb : abal + (ingest_delta r +
            (if normalize_direction r.direction = "debit" then r.amount else -r.amount))
            = abal := by
          rw [delta_cancel, add_zero]
        simp [Function.comp, mkTxn, h, add_assoc, hb]
      · simp [Function.comp, mkTxn, h]
    rw [List.map_congr_left (fun a _ => hpt a)]
    exact List.map_id _
  · exact status_of_map_tx _ _ _
  · exact status_of_map_alert _ _ _

end FraudCore

namespace FraudCore

/-- Claim C9: a transaction approved via step-up with the correct PIN ends
with status `approved`, every alert on it `cleared`, and the account rows
exactly as ingestion left them — the approve path performs no balance
update, so the ingestion delta (applied exactly once at ingestion) is never
applied a second time. -/
theorem approve_keeps_balance (pNew pVel : ProcModel) (chk : String → String → Bool)
    (db : DB) (r : IngestReq) (cid : Nat) (pin : String) (au : AuthRow) (hsh : String)
    (hfresh : ∀ u ∈ db.transactions, u.id ≠ db.next_tx_id)
    (hown : (db.accounts.any (fun a => a.id == r.account_id && a.customer_id == cid)) = true)
    (hau : db.customer_auth.find? (fun x => x.customer_id == cid) = some au)
    (hpin : au.pin_hash = some hsh) (hne : hsh ≠ "")
    (hchk : chk hsh (pyStrip pin) = true) :
    (confirm_suspicious_tx chk
        (mark_pending_verification (insert_transaction pNew pVel db r).1
          (insert_transaction pNew pVel db r).2)
        cid (insert_transaction pNew pVel db r).2 pin "approve").accounts
      = (insert_transaction pNew pVel db r).1.accounts
    ∧ (insert_transaction pNew pVel db r).1.accounts =
        db.accounts.map (fun a =>
          if a.id = r.account_id then { a with balance := a.balance + ingest_delta r } else a)
    ∧ (∀ u ∈ (confirm_suspicious_tx chk
        (mark_pending_verification (insert_transaction pNew pVel db r).1
          (insert_transaction pNew pVel db r).2)
        cid (insert_transaction pNew pVel db r).2 pin "approve").transactions,
        u.id = (insert_transaction pNew pVel db r).2 → u.status = "approved")
    ∧ (∀ a ∈ (confirm_suspicious_tx chk
        (mark_pending_verification (insert_transaction pNew pVel db r).1
          (insert_transaction pNew pVel db r).2)
        cid (insert_transaction pNew pVel db r).2 pin "approve").alerts,
        a.transaction_id = (insert_transaction pNew pVel db r).2 →
          a.status = "cleared") := by
  obtain ⟨hsnd, htx, hacc, _, _, hca, _, _, _, _⟩ := insert_transaction_fields pNew pVel db r
  simp only [hsnd]
  have hPtx : (mark_pending_verification (insert_transaction pNew pVel db r).1
      db.next_tx_id).transactions
      = db.transactions ++ [{ mkTxn db r with status := "declined" }] := by
    show ((insert_transaction pNew pVel db r).1.transactions.map (fun t =>
      if t.id = db.next_tx_id then { t with status := "declined" } else t)) = _
    rw [htx, List.map_append]
    congr 1
    · rw [List.map_congr_left (fun u hu => if_neg (hfresh u hu))]
      exact List.map_id _
    · simp [mkTxn]
  have hfindP : (mark_pending_verification (insert_transaction pNew pVel db r).1
      db.next_tx_id).transactions.find? (fun t => t.id == db.next_tx_id)
      = some { mkTxn db r with status := "declined" } := by
    rw [hPtx, find?_append_right _ _ _ (fun u hu => by
      simpa using hfresh u hu)]
    simp [mkTxn]
  have hPacc : (mark_pending_verification (insert_transaction pNew pVel db r).1
      db.next_tx_id).accounts
      = db.accounts.map (fun a =>
          if a.id = r.account_id then { a with balance := a.balance + ingest_delta r } else a) :=
    hacc
  have hownP : (mark_pending_verification (insert_transaction pNew pVel db r).1
      db.next_tx_id).accounts.any (fun a =>
        a.id == ({ mkTxn db r with status := "declined" } : Txn).account_id &&
          a.customer_id == cid) = true := by
    show (mark_pending_verification (insert_transaction pNew pVel db r).1
      db.next_tx_id).accounts.any (fun a =>
        a.id == r.account_id && a.customer_id == cid) = true
    rw [hPacc, List.any_map]
    have hfun : ((fun (a : Account) => a.id == r.account_id && a.customer_id == cid) ∘
        (fun a => if a.id = r.account_id then
          { a with balance := a.balance + ingest_delta r } else a))
        = fun (a : Account) => a.id == r.account_id && a.customer_id == cid := by
      funext a
      by_cases h : a.id = r.account_id <;> simp [Function.comp, h]
    rw [hfun]
    exact hown
  have hauP : (mark_pending_verification (insert_transaction pNew pVel db r).1
      db.next_tx_id).customer_auth.find? (fun x => x.customer_id == cid) = some au := by
    show (insert_transaction pNew pVel db r).1.customer_auth.find?
      (fun x => x.customer_id == cid) = some au
    rw [hca]
    exact hau
  have heq := confirm_approve_eq chk _ cid db.next_tx_id pin _ au hsh
    hfindP hownP hauP hpin hne hchk
  rw [heq]
  exact ⟨rfl, hacc, status_of_map_tx _ _ _, status_of_map_alert _ _ _⟩

/-- A concrete store used to witness the step-up claims. -/
def exDbS : DB :=
  { accounts := [{ id := 1, customer_id := 7, balance := 1000 }]
    transactions := []
    alerts := []
    merchants := []
    alert_rules := none
    customer_auth := [{ customer_id := 7, pin_hash := some "HASH" }]
    customers := []
    notif_mode := none
    notifications := []
    admin_notifs_exists := false
    admin_notifications := []
    next_tx_id := 1
    next_alert_id := 1
    now := 0 }

/-- A concrete debit large enough to fire the default amount-threshold rule. -/
def exReqS : IngestReq :=
  { account_id := 1, merchant_id := none, device_id := none, amount := 500,
    currency := "USD", status := "approved", ts_iso := none, direction := "debit" }

/-- Witness for C4: concrete ingest, park, deny — the account rows return to
their pre-ingestion value. -/
theorem deny_reverses_ingestion_witness :
    (confirm_suspicious_tx (fun h p => h == "HASH" && p == "1234")
        (mark_pending_verification
          (insert_transaction rule_new_device rule_velocity_3in2min exDbS exReqS).1
          (insert_transaction rule_new_device rule_velocity_3in2min exDbS exReqS).2)
        7 (insert_transaction rule_new_device rule_velocity_3in2min exDbS exReqS).2
        "1234" "deny").accounts = exDbS.accounts :=
  (deny_reverses_ingestion rule_new_device rule_velocity_3in2min
    (fun h p => h == "HASH" && p == "1234") exDbS exReqS 7 "1234"
    { customer_id := 7, pin_hash := some "HASH" } "HASH"
    (by simp [exDbS]) (by decide) (by decide) rfl (by decide) (by decide)).1

/-- Witness for C9: concrete ingest, park, approve — the account rows stay
exactly as ingestion left them. -/
theorem approve_keeps_balance_witness :
    (confirm_suspicious_tx (fun h p => h == "HASH" && p == "1234")
        (mark_pending_verification
          (insert_transaction rule_new_device rule_velocity_3in2min exDbS exReqS).1
          (insert_transaction rule_new_device rule_velocity_3in2min exDbS exReqS).2)
        7 (insert_transaction rule_new_device rule_velocity_3in2min exDbS exReqS).2
        "1234" "approve").accounts
      = (insert_transaction rule_new_device rule_velocity_3in2min exDbS exReqS).1.accounts :=
  (approve_keeps_balance rule_new_device rule_velocity_3in2min
    (fun h p => h == "HASH" && p == "1234") exDbS exReqS 7 "1234"
    { customer_id := 7, pin_hash := some "HASH" } "HASH"
    (by simp [exDbS]) (by decide) (by decide) rfl (by decide) (by decide)).1

end FraudCore

namespace FraudCore

/-! ### What the store-side procedures can write -/

/-- `p` only ever requests alert rows with rule code `code`. -/
def ProcEmitsOnly (p : ProcModel) (code : String) : Prop :=
  ∀ db t reqs, p db t = Except.ok reqs → ∀ q ∈ reqs, q.1 = code

theorem rule_new_device_emits : ProcEmitsOnly rule_new_device "NEW_DEVICE" := by
  intro db t reqs h q hq
  unfold rule_new_device at h
  split at h
  · injection h with h
    subst h
    exact absurd hq (by simp)
  · split at h
    · injection h with h
      subst h
      exact absurd hq (by simp)
    · split at h
      · injection h with h
        subst h
        exact absurd hq (by simp)
      · injection h with h
        subst h
        rw [List.mem_singleton] at hq
        subst hq
        rfl

theorem rule_velocity_emits : ProcEmitsOnly rule_velocity_3in2min "VELOCITY_3IN2MIN" := by
  intro db t reqs h q hq
  unfold rule_velocity_3in2min at h
  split at h
  · injection h with h
    subst h
    exact absurd hq (by simp)
  · simp only [] at h
    split at h
    · injection h with h
      subst h
      rw [List.mem_singleton] at hq
      subst hq
      rfl
    · injection h with h
      subst h
      exact absurd hq (by simp)

theorem hasAlert_shift {db db' : DB} {l : List Alert} (h : db'.alerts = db.alerts ++ l)
    (t : Nat) (c : String) :
    hasAlert db' t c =
      (hasAlert db t c || l.any (fun a => a.transaction_id == t && a.rule_code == c)) := by
  simp [hasAlert, h, List.any_append]

theorem insertAlertsSeq_preserves_hasAlert {t : Nat} {code0 c : String} (hc : c ≠ code0) :
    ∀ (reqs : List (String × String)) (db db' : DB),
      (∀ q ∈ reqs, (q : String × String).1 = code0) →
      insertAlertsSeq db t reqs = Except.ok db' →
      ∀ t', hasAlert db' t' c = hasAlert db t' c := by
  intro reqs
  induction reqs with
  | nil =>
    intro db db' _ h t'
    injection h with h
    subst h
    rfl
  | cons q rest ih =>
    intro db db' hcodes h t'
    unfold insertAlertsSeq at h
    split at h
    · exact Except.noConfusion h
    · next db1 hins =>
      have hcode : q.1 = code0 := hcodes q (by simp)
      obtain ⟨_, _, halerts⟩ := alerts_insert_ok hins
      have hrest := ih db1 db' (fun x hx => hcodes x (List.mem_cons_of_mem _ hx)) h t'
      have hne2 : ((newAlertRow db t q.1 q.2 "open").rule_code == c) = false := by
        rw [show (newAlertRow db t q.1 q.2 "open").rule_code = q.1 from rfl, hcode]
        simp
        exact fun hcontra => hc hcontra.symm
      rw [hrest, hasAlert_shift halerts]
      simp [hne2]

theorem call_db_rule_preserves_hasAlert {p : ProcModel} {code0 c : String}
    (hp : ProcEmitsOnly p code0) (hc : c ≠ code0) (db : DB) (t t' : Nat) :
    hasAlert (call_db_rule p db t) t' c = hasAlert db t' c := by
  unfold call_db_rule
  split
  · rfl
  · next reqs hpr =>
    split
    · rfl
    · next db1 hseq =>
      exact insertAlertsSeq_preserves_hasAlert hc reqs db db1 (hp db t reqs hpr) hseq t'

theorem run_db_rules_preserves_hasAlert {pN pV : ProcModel} {cN cV c : String}
    (hpN : ProcEmitsOnly pN cN) (hpV : ProcEmitsOnly pV cV)
    (h1 : c ≠ cN) (h2 : c ≠ cV) (db : DB) (t t' : Nat) :
    hasAlert (run_db_rules pN pV db t) t' c = hasAlert db t' c := by
  unfold run_db_rules
  rw [call_db_rule_preserves_hasAlert hpV h2, call_db_rule_preserves_hasAlert hpN h1]

/-! ### Severity values are always one of the three labels -/

theorem sev_threshold_mem (amount threshold : ℚ) (tier : String) :
    _severity_for_threshold amount threshold tier = "low" ∨
    _severity_for_threshold amount threshold tier = "med" ∨
    _severity_for_threshold amount threshold tier = "high" := by
  unfold _severity_for_threshold
  simp only []
  split_ifs <;> simp

theorem sev_spike_mem (amount avg : ℚ) (tier : String) :
    _severity_for_spike_vs_avg amount avg tier = "low" ∨
    _severity_for_spike_vs_avg amount avg tier = "med" ∨
    _severity_for_spike_vs_avg amount avg tier = "high" := by
  unfold _severity_for_spike_vs_avg
  simp only []
  split_ifs <;> simp

theorem pyLower_sev {s : String}
    (h : s = "low" ∨ s = "med" ∨ s = "high") :
    pyLower (if s = "" then "high" else s) = s := by
  rcases h with h | h | h <;> subst h <;> decide

end FraudCore

namespace FraudCore

/-- One fresh evaluation of the Python rule engine, for store-side
procedures that only write their own rule codes: the `AMOUNT_THRESHOLD`
alert appears iff the transaction is a debit at or above the resolved
threshold; the `SPIKE_VS_AVG` alert appears iff the lookback is positive,
the rolling average (computed after the row was inserted) is positive and
`amount ≥ spike_multiplier × average`; and when the spike rule fires its
row carries exactly the severity of `_severity_for_spike_vs_avg`. -/
theorem run_rules_fresh_characterization
    (pN pV : ProcModel) (cN cV : String)
    (hpN : ProcEmitsOnly pN cN) (hpV : ProcEmitsOnly pV cV)
    (hcNa : ("AMOUNT_THRESHOLD" : String) ≠ cN) (hcNs : ("SPIKE_VS_AVG" : String) ≠ cN)
    (hcVa : ("AMOUNT_THRESHOLD" : String) ≠ cV) (hcVs : ("SPIKE_VS_AVG" : String) ≠ cV)
    (db : DB) (txid : Nat) (tx : Txn)
    (hfind : db.transactions.find? (fun t => t.id == txid) = some tx)
    (hfresh : ∀ a ∈ db.alerts, a.transaction_id ≠ txid) :
    (hasAlert (run_rules_for_transaction pN pV db txid) txid "AMOUNT_THRESHOLD" = true ↔
      (pyLower tx.direction = "debit" ∧
        (get_alert_rule_for_account db (some tx.account_id)).amount_threshold ≤ tx.amount))
    ∧ (hasAlert (run_rules_for_transaction pN pV db txid) txid "SPIKE_VS_AVG" = true ↔
      (0 < (get_alert_rule_for_account db (some tx.account_id)).lookback_days ∧
        0 < rolling_avg_amount db tx.account_id
            (get_alert_rule_for_account db (some tx.account_id)).lookback_days ∧
        (get_alert_rule_for_account db (some tx.account_id)).spike_multiplier *
            rolling_avg_amount db tx.account_id
              (get_alert_rule_for_account db (some tx.account_id)).lookback_days ≤ tx.amount))
    ∧ ((0 < (get_alert_rule_for_account db (some tx.account_id)).lookback_days ∧
        0 < rolling_avg_amount db tx.account_id
            (get_alert_rule_for_account db (some tx.account_id)).lookback_days ∧
        (get_alert_rule_for_account db (some tx.account_id)).spike_multiplier *
            rolling_avg_amount db tx.account_id
              (get_alert_rule_for_account db (some tx.account_id)).lookback_days ≤ tx.amount) →
      ∃ a, a ∈ (run_rules_for_transaction pN pV db txid).alerts ∧
        a.transaction_id = txid ∧ a.rule_code = "SPIKE_VS_AVG" ∧
        a.severity = _severity_for_spike_vs_avg tx.amount
          (rolling_avg_amount db tx.account_id
            (get_alert_rule_for_account db (some tx.account_id)).lookback_days)
          (_merchant_risk_tier db tx.merchant_id) ∧
        a.status = "open") := by
  have hAT : hasAlert db txid "AMOUNT_THRESHOLD" = false :=
    hasAlert_eq_false_iff.mpr (fun a ha hand => hfresh a ha hand.1)
  have hSP : hasAlert db txid "SPIKE_VS_AVG" = false :=
    hasAlert_eq_false_iff.mpr (fun a ha hand => hfresh a ha hand.1)
  unfold run_rules_for_transaction
  rw [hfind]
  simp only []
  by_cases h1 : pyLower tx.direction = "debit" ∧
      (get_alert_rule_for_account db (some tx.account_id)).amount_threshold ≤ tx.amount
  · rw [if_pos h1]
    obtain ⟨db1, hok1⟩ := @create_alert_of_fresh db txid "AMOUNT_THRESHOLD"
      (_severity_for_threshold tx.amount
        (get_alert_rule_for_account db (some tx.account_id)).amount_threshold
        (_merchant_risk_tier db tx.merchant_id)) "open" hAT
    rw [hok1]
    simp only []
    obtain ⟨hg1, honly1, halerts1⟩ := create_alert_ok hok1
    have havg : rolling_avg_amount db1 tx.account_id
        (get_alert_rule_for_account db (some tx.account_id)).lookback_days
        = rolling_avg_amount db tx.account_id
            (get_alert_rule_for_account db (some tx.account_id)).lookback_days := by
      unfold rolling_avg_amount
      rw [honly1.2.1, honly1.2.2.2.2.2.2.2.2.2]
    rw [havg]
    have hAT1 : hasAlert db1 txid "AMOUNT_THRESHOLD" = true := by
      rw [hasAlert_shift halerts1]
      simp [newAlertRow]
    have hSP1 : hasAlert db1 txid "SPIKE_VS_AVG" = false := by
      rw [hasAlert_shift halerts1, hSP]
      simp [newAlertRow]
    by_cases h2 : 0 < (get_alert_rule_for_account db (some tx.account_id)).lookback_days
    · rw [if_pos h2]
      by_cases h3 : 0 < rolling_avg_amount db tx.account_id
            (get_alert_rule_for_account db (some tx.account_id)).lookback_days ∧
          (get_alert_rule_for_account db (some tx.account_id)).spike_multiplier *
              rolling_avg_amount db tx.account_id
                (get_alert_rule_for_account db (some tx.account_id)).lookback_days ≤ tx.amount
      · rw [if_pos h3]
        obtain ⟨db2, hok2⟩ := @create_alert_of_fresh db1 txid "SPIKE_VS_AVG"
          (_severity_for_spike_vs_avg tx.amount
            (rolling_avg_amount db tx.account_id
              (get_alert_rule_for_account db (some tx.account_id)).lookback_days)
            (_merchant_risk_tier db tx.merchant_id)) "open" hSP1
        rw [hok2]
        simp only []
        obtain ⟨hg2, honly2, halerts2⟩ := create_alert_ok hok2
        have hAT2 : hasAlert db2 txid "AMOUNT_THRESHOLD" = true := by
          rw [hasAlert_shift halerts2, hAT1]
          simp
        have hSP2 : hasAlert db2 txid "SPIKE_VS_AVG" = true := by
          rw [hasAlert_shift halerts2]
          simp [newAlertRow]
        refine ⟨?_, ?_, ?_⟩
        · rw [run_db_rules_preserves_hasAlert hpN hpV hcNa hcVa, hAT2]
          exact iff_of_true rfl h1
        · rw [run_db_rules_preserves_hasAlert hpN hpV hcNs hcVs, hSP2]
          exact iff_of_true rfl ⟨h2, h3.1, h3.2⟩
        · intro _
          obtain ⟨l, hl⟩ := run_db_rules_alerts_ext pN pV db2 txid
          refine ⟨newAlertRow db1 txid "SPIKE_VS_AVG"
            (pyLower (if _severity_for_spike_vs_avg tx.amount
                (rolling_avg_amount db tx.account_id
                  (get_alert_rule_for_account db (some tx.account_id)).lookback_days)
                (_merchant_risk_tier db tx.merchant_id) = "" then "high"
              else _severity_for_spike_vs_avg tx.amount
                (rolling_avg_amount db tx.account_id
                  (get_alert_rule_for_account db (some tx.account_id)).lookback_days)
                (_merchant_risk_tier db tx.merchant_id)))
            (pyLower (if ("open" : String) = "" then "open" else "open")), ?_, rfl, rfl, ?_, ?_⟩
          · rw [hl, halerts2]
            simp
          · show pyLower _ = _
            exact pyLower_sev (sev_spike_mem _ _ _)
          · show pyLower _ = _
            decide
      · rw [if_neg h3]
        simp only []
        refine ⟨?_, ?_, ?_⟩
        · rw [run_db_rules_preserves_hasAlert hpN hpV hcNa hcVa, hAT1]
          exact iff_of_true rfl h1
        · rw [run_db_rules_preserves_hasAlert hpN hpV hcNs hcVs, hSP1]
          exact iff_of_false (by simp) (fun hcon => h3 ⟨hcon.2.1, hcon.2.2⟩)
        · exact fun hcon => absurd ⟨hcon.2.1, hcon.2.2⟩ h3
    · rw [if_neg h2]
      simp only []
      refine ⟨?_, ?_, ?_⟩
      · rw [run_db_rules_preserves_hasAlert hpN hpV hcNa hcVa, hAT1]
        exact iff_of_true rfl h1
      · rw [run_db_rules_preserves_hasAlert hpN hpV hcNs hcVs, hSP1]
        exact iff_of_false (by simp) (fun hcon => h2 hcon.1)
      · exact fun hcon => absurd hcon.1 h2
  · rw [if_neg h1]
    simp only []
    by_cases h2 : 0 < (get_alert_rule_for_account db (some tx.account_id)).lookback_days
    · rw [if_pos h2]
      by_cases h3 : 0 < rolling_avg_amount db tx.account_id
            (get_alert_rule_for_account db (some tx.account_id)).lookback_days ∧
          (get_alert_rule_for_account db (some tx.account_id)).spike_multiplier *
              rolling_avg_amount db tx.account_id
                (get_alert_rule_for_account db (some tx.account_id)).lookback_days ≤ tx.amount
      · rw [if_pos h3]
        obtain ⟨db2, hok2⟩ := @create_alert_of_fresh db txid "SPIKE_VS_AVG"
          (_severity_for_spike_vs_avg tx.amount
            (rolling_avg_amount db tx.account_id
              (get_alert_rule_for_account db (some tx.account_id)).lookback_days)
            (_merchant_risk_tier db tx.merchant_id)) "open" hSP
        rw [hok2]
        simp only []
        obtain ⟨hg2, honly2, halerts2⟩ := create_alert_ok hok2
        have hAT2 : hasAlert db2 txid "AMOUNT_THRESHOLD" = false := by
          rw [hasAlert_shift halerts2, hAT]
          simp [newAlertRow]
        have hSP2 : hasAlert db2 txid "SPIKE_VS_AVG" = true := by
          rw [hasAlert_shift halerts2]
          simp [newAlertRow]
        refine ⟨?_, ?_, ?_⟩
        · rw [run_db_rules_preserves_hasAlert hpN hpV hcNa hcVa, hAT2]
          exact iff_of_false (by simp) h1
        · rw [run_db_rules_preserves_hasAlert hpN hpV hcNs hcVs, hSP2]
          exact iff_of_true rfl ⟨h2, h3.1, h3.2⟩
        · intro _
          obtain ⟨l, hl⟩ := run_db_rules_alerts_ext pN pV db2 txid
          refine ⟨newAlertRow db txid "SPIKE_VS_AVG"
            (pyLower (if _severity_for_spike_vs_avg tx.amount
                (rolling_avg_amount db tx.account_id
                  (get_alert_rule_for_account db (some tx.account_id)).lookback_days)
                (_merchant_risk_tier db tx.merchant_id) = "" then "high"
              else _severity_for_spike_vs_avg tx.amount
                (rolling_avg_amount db tx.account_id
                  (get_alert_rule_for_account db (some tx.account_id)).lookback_days)
                (_merchant_risk_tier db tx.merchant_id)))
            (pyLower (if ("open" : String) = "" then "open" else "open")), ?_, rfl, rfl, ?_, ?_⟩
          · rw [hl, halerts2]
            simp
          · show pyLower _ = _
            exact pyLower_sev (sev_spike_mem _ _ _)
          · show pyLower _ = _
            decide
      · rw [if_neg h3]
        simp only []
        refine ⟨?_, ?_, ?_⟩
        · rw [run_db_rules_preserves_hasAlert hpN hpV hcNa hcVa, hAT]
          exact iff_of_false (by simp) h1
        · rw [run_db_rules_preserves_hasAlert hpN hpV hcNs hcVs, hSP]
          exact iff_of_false (by simp) (fun hcon => h3 ⟨hcon.2.1, hcon.2.2⟩)
        · exact fun hcon => absurd ⟨hcon.2.1, hcon.2.2⟩ h3
    · rw [if_neg h2]
      simp only []
      refine ⟨?_, ?_, ?_⟩
      · rw [run_db_rules_preserves_hasAlert hpN hpV hcNa hcVa, hAT]
        exact iff_of_false (by simp) h1
      · rw [run_db_rules_preserves_hasAlert hpN hpV hcNs hcVs, hSP]
        exact iff_of_false (by simp) (fun hcon => h2 hcon.1)
      · exact fun hcon => absurd hcon.1 h2

end FraudCore

namespace FraudCore

/-- Claim C3: with a positive lookback, a fresh rule evaluation creates a
`SPIKE_VS_AVG` alert exactly when the lookback-window average is positive
and `amount ≥ spike_multiplier × average`; the created alert's severity is
`_severity_for_spike_vs_avg amount avg tier`. -/
theorem spike_rule_spec (db : DB) (txid : Nat) (tx : Txn)
    (hfind : db.transactions.find? (fun t => t.id == txid) = some tx)
    (hfresh : ∀ a ∈ db.alerts, a.transaction_id ≠ txid)
    (hlb : 0 < (get_alert_rule_for_account db (some tx.account_id)).lookback_days) :
    (hasAlert (run_rules_for_transaction rule_new_device rule_velocity_3in2min db txid)
        txid "SPIKE_VS_AVG" = true ↔
      (0 < rolling_avg_amount db tx.account_id
          (get_alert_rule_for_account db (some tx.account_id)).lookback_days ∧
        (get_alert_rule_for_account db (some tx.account_id)).spike_multiplier *
            rolling_avg_amount db tx.account_id
              (get_alert_rule_for_account db (some tx.account_id)).lookback_days ≤ tx.amount))
    ∧ ((0 < rolling_avg_amount db tx.account_id
          (get_alert_rule_for_account db (some tx.account_id)).lookback_days ∧
        (get_alert_rule_for_account db (some tx.account_id)).spike_multiplier *
            rolling_avg_amount db tx.account_id
              (get_alert_rule_for_account db (some tx.account_id)).lookback_days ≤ tx.amount) →
      ∃ a, a ∈ (run_rules_for_transaction rule_new_device rule_velocity_3in2min db txid).alerts ∧
        a.transaction_id = txid ∧ a.rule_code = "SPIKE_VS_AVG" ∧
        a.severity = _severity_for_spike_vs_avg tx.amount
          (rolling_avg_amount db tx.account_id
            (get_alert_rule_for_account db (some tx.account_id)).lookback_days)
          (_merchant_risk_tier db tx.merchant_id)) := by
  have H := run_rules_fresh_characterization rule_new_device rule_velocity_3in2min
    "NEW_DEVICE" "VELOCITY_3IN2MIN" rule_new_device_emits rule_velocity_emits
    (by decide) (by decide) (by decide) (by decide) db txid tx hfind hfresh
  constructor
  · rw [H.2.1]
    exact ⟨fun h => ⟨h.2.1, h.2.2⟩, fun h => ⟨hlb, h.1, h.2⟩⟩
  · intro h
    obtain ⟨a, ha1, ha2, ha3, ha4, _⟩ := H.2.2 ⟨hlb, h.1, h.2⟩
    exact ⟨a, ha1, ha2, ha3, ha4⟩

/-- Claim C8: a fresh rule evaluation creates an `AMOUNT_THRESHOLD` alert
exactly when the transaction is a debit whose amount is at or above the
threshold resolved for its account. -/
theorem amount_threshold_rule_spec (db : DB) (txid : Nat) (tx : Txn)
    (hfind : db.transactions.find? (fun t => t.id == txid) = some tx)
    (hfresh : ∀ a ∈ db.alerts, a.transaction_id ≠ txid) :
    hasAlert (run_rules_for_transaction rule_new_device rule_velocity_3in2min db txid)
        txid "AMOUNT_THRESHOLD" = true ↔
      (pyLower tx.direction = "debit" ∧
        (get_alert_rule_for_account db (some tx.account_id)).amount_threshold ≤ tx.amount) :=
  (run_rules_fresh_characterization rule_new_device rule_velocity_3in2min
    "NEW_DEVICE" "VELOCITY_3IN2MIN" rule_new_device_emits rule_velocity_emits
    (by decide) (by decide) (by decide) (by decide) db txid tx hfind hfresh).1

end FraudCore

namespace FraudCore

/-- The 1000-amount debit of the C3 scenario. -/
def exTx3 : Txn :=
  { id := 10, account_id := 1, merchant_id := none, device_id := none, amount := 1000,
    currency := "USD", direction := "debit", status := "approved", ts := 0 }

/-- Zero-amount filler transactions that pin the trailing average at 100. -/
def zeroTx3 (i : Nat) : Txn :=
  { id := i, account_id := 1, merchant_id := none, device_id := none, amount := 0,
    currency := "USD", direction := "debit", status := "approved", ts := 0 }

/-- A store whose account 1 has a trailing 30-day average of exactly 100
across ten window transactions, one of which is the 1000 debit. -/
def exDb3 : DB :=
  { accounts := [{ id := 1, customer_id := 7, balance := 1000 }]
    transactions := [exTx3, zeroTx3 1, zeroTx3 2, zeroTx3 3, zeroTx3 4, zeroTx3 5,
      zeroTx3 6, zeroTx3 7, zeroTx3 8, zeroTx3 9]
    alerts := []
    merchants := []
    alert_rules := none
    customer_auth := []
    customers := []
    notif_mode := none
    notifications := []
    admin_notifs_exists := false
    admin_notifications := []
    next_tx_id := 11
    next_alert_id := 1
    now := 0 }

/-- Witness for C3: amount 1000, trailing average 100, default multiplier
`5/2` — the spike rule fires (`1000 ≥ 250`). -/
theorem spike_rule_spec_witness :
    hasAlert (run_rules_for_transaction rule_new_device rule_velocity_3in2min exDb3 10)
      10 "SPIKE_VS_AVG" = true := by
  have havg : rolling_avg_amount exDb3 exTx3.account_id
      (get_alert_rule_for_account exDb3 (some exTx3.account_id)).lookback_days = 100 := by
    norm_num [rolling_avg_amount, rolling_avg_core, exDb3, exTx3, zeroTx3,
      get_alert_rule_for_account, resolve_rule, defaultCfg, DEFAULT_LOOKBACK_DAYS]
  have H := spike_rule_spec exDb3 10 exTx3 rfl (by simp [exDb3]) (by decide)
  rw [H.1, havg]
  norm_num [exTx3, get_alert_rule_for_account, resolve_rule, defaultCfg,
    DEFAULT_SPIKE_MULTIPLIER, exDb3]

end FraudCore

namespace FraudCore

/-- The C8 scenario store: one account, no transaction history, no
`alert_rules` table (so the default threshold 200 applies). -/
def exDb8 : DB :=
  { accounts := [{ id := 1, customer_id := 7, balance := 1000 }]
    transactions := []
    alerts := []
    merchants := []
    alert_rules := none
    customer_auth := []
    customers := []
    notif_mode := none
    notifications := []
    admin_notifs_exists := false
    admin_notifications := []
    next_tx_id := 1
    next_alert_id := 1
    now := 0 }

/-- The C8 scenario request: a debit of 250 with no merchant and no device. -/
def exReq8 : IngestReq :=
  { account_id := 1, merchant_id := none, device_id := none, amount := 250,
    currency := "USD", status := "approved", ts_iso := none, direction := "debit" }

/-- Witness for C8: ingesting a debit of 250 with threshold 200 and no prior
history produces exactly one alert, `AMOUNT_THRESHOLD`, and no
`SPIKE_VS_AVG`. -/
theorem amount_threshold_rule_spec_witness :
    ((insert_transaction rule_new_device rule_velocity_3in2min exDb8 exReq8).1.alerts.map
        Alert.rule_code = ["AMOUNT_THRESHOLD"])
    ∧ hasAlert (insert_transaction rule_new_device rule_velocity_3in2min exDb8 exReq8).1
        1 "AMOUNT_THRESHOLD" = true := by
  constructor
  · have hd : pyLower "debit" = "debit" := by decide
    have ho : pyLower "open" = "open" := by decide
    norm_num [insert_transaction, mkTxn, normalize_direction, run_rules_for_transaction,
      get_alert_rule_for_account, resolve_rule, defaultCfg, DEFAULT_THRESHOLD,
      DEFAULT_SPIKE_MULTIPLIER, DEFAULT_LOOKBACK_DAYS, _merchant_risk_tier, tier_core,
      _severity_for_threshold, pyLower_med, hd, ho, create_alert, alerts_insert, hasAlert,
      newAlertRow, mirror_notification, notifications_mode, rolling_avg_amount,
      rolling_avg_core, run_db_rules, call_db_rule, insertAlertsSeq, rule_new_device,
      rule_velocity_3in2min, exDb8, exReq8]
  · have H := amount_threshold_rule_spec
      { exDb8 with
        transactions := exDb8.transactions ++ [mkTxn exDb8 exReq8]
        next_tx_id := exDb8.next_tx_id + 1
        accounts := exDb8.accounts.map (fun a =>
          if a.id = exReq8.account_id then
            { a with balance := a.balance +
                (if normalize_direction exReq8.direction = "debit"
                  then -exReq8.amount else exReq8.amount) }
          else a) }
      1 (mkTxn exDb8 exReq8) rfl (by simp [exDb8])
    exact H.mpr ⟨by decide, by
      norm_num [mkTxn, exDb8, exReq8, get_alert_rule_for_account, resolve_rule,
        defaultCfg, DEFAULT_THRESHOLD]⟩

end FraudCore

namespace FraudCore

/-- The store after the financial writes of `insert_transaction` (row
insert, balance update) but before rule evaluation. -/
def mid_state (db : DB) (r : IngestReq) : DB :=
  { db with
    transactions := db.transactions ++ [mkTxn db r]
    next_tx_id := db.next_tx_id + 1
    accounts := db.accounts.map (fun a =>
      if a.id = r.account_id then
        { a with balance := a.balance +
            (if normalize_direction r.direction = "debit" then -r.amount else r.amount) }
      else a) }

/-- Claim C10: the rolling average the spike rule sees is computed after the
new row is inserted and includes that row; for an account with no other
transactions in the window (and a default `NOW()` timestamp), the average
equals the new transaction's own amount, so the spike rule fires at
ingestion iff `spike_multiplier ≤ 1` — and never when the `alert_rules`
table is absent, since the default multiplier is `5/2`. -/
theorem first_transaction_spike_spec (db : DB) (r : IngestReq)
    (hts : r.ts_iso = none)
    (hamt : 0 < r.amount)
    (hfreshT : ∀ u ∈ db.transactions, u.id ≠ db.next_tx_id)
    (hfreshA : ∀ a ∈ db.alerts, a.transaction_id ≠ db.next_tx_id)
    (hlb : 0 < (get_alert_rule_for_account db (some r.account_id)).lookback_days)
    (hwin : ∀ u ∈ db.transactions, u.account_id = r.account_id →
      u.ts < db.now -
        ((get_alert_rule_for_account db (some r.account_id)).lookback_days : ℚ)) :
    rolling_avg_amount (insert_transaction rule_new_device rule_velocity_3in2min db r).1
        r.account_id (get_alert_rule_for_account db (some r.account_id)).lookback_days
      = r.amount
    ∧ (hasAlert (insert_transaction rule_new_device rule_velocity_3in2min db r).1
        (insert_transaction rule_new_device rule_velocity_3in2min db r).2 "SPIKE_VS_AVG"
        = true ↔
      (get_alert_rule_for_account db (some r.account_id)).spike_multiplier ≤ 1)
    ∧ (db.alert_rules = none →
      hasAlert (insert_transaction rule_new_device rule_velocity_3in2min db r).1
        (insert_transaction rule_new_device rule_velocity_3in2min db r).2 "SPIKE_VS_AVG"
        = false) := by
  have hL0 : (0 : ℚ) ≤
      ((get_alert_rule_for_account db (some r.account_id)).lookback_days : ℚ) := by
    exact_mod_cast le_of_lt hlb
  have htsmk : (mkTxn db r).ts = db.now := by simp [mkTxn, hts]
  have hcore : rolling_avg_core (db.transactions ++ [mkTxn db r]) db.now r.account_id
      (get_alert_rule_for_account db (some r.account_id)).lookback_days = r.amount := by
    unfold rolling_avg_core
    simp only []
    rw [List.filter_append]
    have hnil : db.transactions.filter (fun t => t.account_id == r.account_id &&
        decide (db.now -
          ((get_alert_rule_for_account db (some r.account_id)).lookback_days : ℚ)
            ≤ t.ts)) = [] := by
      rw [List.filter_eq_nil_iff]
      intro u hu
      by_cases hacc : u.account_id = r.account_id
      · have hlt := hwin u hu hacc
        simp [hacc]
        exact lt_sub_iff_add_lt.mp hlt
      · simp [hacc]
    rw [hnil]
    have hin : db.now -
        ((get_alert_rule_for_account db (some r.account_id)).lookback_days : ℚ)
          ≤ (mkTxn db r).ts := by
      rw [htsmk]
      exact sub_le_self _ hL0
    have hone : List.filter (fun t => t.account_id == r.account_id &&
        decide (db.now -
          ((get_alert_rule_for_account db (some r.account_id)).lookback_days : ℚ)
            ≤ t.ts)) [mkTxn db r] = [mkTxn db r] := by
      simp [mkTxn, hts]
      linarith [hL0]
    rw [hone]
    simp [mkTxn]
  obtain ⟨hsnd, htxf, haccf, hmerf, harf, hcaf, hcuf, hadf, hntf, hnowf⟩ :=
    insert_transaction_fields rule_new_device rule_velocity_3in2min db r
  have part1 : rolling_avg_amount
      (insert_transaction rule_new_device rule_velocity_3in2min db r).1 r.account_id
      (get_alert_rule_for_account db (some r.account_id)).lookback_days = r.amount := by
    unfold rolling_avg_amount
    rw [htxf, hnowf]
    exact hcore
  have hfind2 : (mid_state db r).transactions.find?
      (fun t => t.id == (mkTxn db r).id) = some (mkTxn db r) := by
    have hfirst : ∀ u ∈ db.transactions, (fun t => t.id == (mkTxn db r).id) u = false := by
      intro u hu
      show (u.id == db.next_tx_id) = false
      simpa using hfreshT u hu
    show (db.transactions ++ [mkTxn db r]).find?
      (fun t => t.id == (mkTxn db r).id) = some (mkTxn db r)
    rw [find?_append_right _ _ _ hfirst]
    simp
  have hfresh2 : ∀ a ∈ (mid_state db r).alerts, a.transaction_id ≠ (mkTxn db r).id := by
    intro a ha
    show a.transaction_id ≠ db.next_tx_id
    exact hfreshA a ha
  have hrc := run_rules_fresh_characterization rule_new_device rule_velocity_3in2min
    "NEW_DEVICE" "VELOCITY_3IN2MIN" rule_new_device_emits rule_velocity_emits
    (by decide) (by decide) (by decide) (by decide) (mid_state db r) (mkTxn db r).id
    (mkTxn db r) hfind2 hfresh2
  have hcfg2 : get_alert_rule_for_account (mid_state db r) (some (mkTxn db r).account_id)
      = get_alert_rule_for_account db (some r.account_id) := rfl
  rw [hcfg2] at hrc
  have havg2 : rolling_avg_amount (mid_state db r) (mkTxn db r).account_id
      (get_alert_rule_for_account db (some r.account_id)).lookback_days = r.amount := hcore
  rw [havg2] at hrc
  have hamt2 : (mkTxn db r).amount = r.amount := rfl
  rw [hamt2] at hrc
  have hiff : hasAlert (insert_transaction rule_new_device rule_velocity_3in2min db r).1
      (insert_transaction rule_new_device rule_velocity_3in2min db r).2 "SPIKE_VS_AVG"
      = true ↔
      (get_alert_rule_for_account db (some r.account_id)).spike_multiplier ≤ 1 := by
    show hasAlert (run_rules_for_transaction rule_new_device rule_velocity_3in2min
      (mid_state db r) (mkTxn db r).id) (mkTxn db r).id "SPIKE_VS_AVG" = true ↔ _
    rw [hrc.2.1]
    constructor
    · exact fun h => (mul_le_iff_le_one_left hamt).mp h.2.2
    · exact fun h => ⟨hlb, hamt, (mul_le_iff_le_one_left hamt).mpr h⟩
  refine ⟨part1, hiff, ?_⟩
  intro h0
  have hmult : (get_alert_rule_for_account db (some r.account_id)).spike_multiplier
      = 5 / 2 := by
    unfold get_alert_rule_for_account
    rw [h0]
    rfl
  cases hb : hasAlert (insert_transaction rule_new_device rule_velocity_3in2min db r).1
      (insert_transaction rule_new_device rule_velocity_3in2min db r).2 "SPIKE_VS_AVG"
  · rfl
  · exfalso
    have hle := hiff.mp hb
    rw [hmult] at hle
    norm_num at hle

end FraudCore

namespace FraudCore

/-- The C10 scenario request: a first-ever debit of 50 with the default
`NOW()` timestamp. -/
def exReq10 : IngestReq :=
  { account_id := 1, merchant_id := none, device_id := none, amount := 50,
    currency := "USD", status := "approved", ts_iso := none, direction := "debit" }

/-- Witness for C10: a first transaction's own amount is its rolling
average, and under the default multiplier `5/2` the spike rule does not
fire. -/
theorem first_transaction_spike_spec_witness :
    rolling_avg_amount (insert_transaction rule_new_device rule_velocity_3in2min
        exDb8 exReq10).1 exReq10.account_id
      (get_alert_rule_for_account exDb8 (some exReq10.account_id)).lookback_days = 50
    ∧ hasAlert (insert_transaction rule_new_device rule_velocity_3in2min exDb8 exReq10).1
        (insert_transaction rule_new_device rule_velocity_3in2min exDb8 exReq10).2
        "SPIKE_VS_AVG" = false := by
  have H := first_transaction_spike_spec exDb8 exReq10 rfl (by norm_num [exReq10])
    (by simp [exDb8]) (by simp [exDb8]) (by decide) (by simp [exDb8])
  exact ⟨H.1, H.2.2 rfl⟩

end FraudCore
